import Mathlib

/-!
# hid-procon: Nintendo Switch Pro Controller HID driver

A shallow embedding of `src/hid-procon.c` and theorems about it.

Conventions of the embedding.

* A byte buffer `u8 *data` is a `List Nat`: the memory reachable from the
  pointer.  A read `data[i]` is `rd data i`, truncated to 8 bits.  The C code
  never compares an index with `size`, so `size` is a separate argument, as it
  is in C; a read past the end of the list stands for memory the model does not
  describe and yields 0.
* `u16`/`s16` reads through a cast pointer are little-endian, the byte order of
  the hosts the driver is built for.
* Machine integers are `Nat`/`Int` with explicit reductions: `u8c`, `s16c` and
  `u64c` are the C conversions to `u8`, `s16` and `u64` (modular, as the kernel
  is compiled).
* Output to the transport is the list of frames handed to
  `hid_hw_raw_request` / `hid_hw_output_report`; input events are the values
  handed to `input_report_abs` / `input_report_key` before `input_sync`.
-/

namespace Procon

/-! ## Constants (lines 18-46) -/

def PROCON_REPORT_SEND_USB : Nat := 0x80
def PROCON_REPORT_REPLY_USB : Nat := 0x81
def PROCON_REPORT_REPLY : Nat := 0x21
def PROCON_REPORT_TYPE : Nat := 0x00
def PROCON_REPORT_CMD_ACK : Nat := 0x0E
def PROCON_REPORT_INPUT_FULL : Nat := 0x30
def PROCON_REPORT_INPUT_SIMPLE : Nat := 0x3F

def PROCON_USB_HANDSHAKE : Nat := 0x02
def PROCON_USB_BAUD : Nat := 0x03
def PROCON_USB_ENABLE : Nat := 0x04
def PROCON_USB_DISABLE : Nat := 0x05
def PROCON_USB_DO_CMD : Nat := 0x92

def PROCON_CMD_AND_RUMBLE : Nat := 0x01
def PROCON_CMD_RUMBLE_ONLY : Nat := 0x10

def PROCON_CMD_INFO : Nat := 0x02
def PROCON_CMD_MODE : Nat := 0x03
def PROCON_CMD_BTNTIME : Nat := 0x04
def PROCON_CMD_LED : Nat := 0x30
def PROCON_CMD_LED_HOME : Nat := 0x38
def PROCON_CMD_GYRO : Nat := 0x40
def PROCON_CMD_BATTERY : Nat := 0x50

def PROCON_ARG_INPUT_FULL : Nat := 0x30
def PROCON_ARG_INPUT_SIMPLE : Nat := 0x3F

def PROCON_EVENT_TOGGLE_GYRO : Nat := 0xFF

/-- The value of `-EINVAL`. -/
def EINVAL_neg : Int := -22

/-! ## Machine arithmetic -/

/-- Conversion to `u8`. -/
def u8c (n : Nat) : Nat := n % 256

/-- Conversion to `u16`. -/
def u16c (n : Nat) : Nat := n % 65536

/-- Conversion of an `int` to `s16` (two's complement, modular). -/
def s16c (n : Int) : Int := (n + 32768) % 65536 - 32768

/-- Conversion to `u64`. -/
def u64c (n : Int) : Nat := (n % 18446744073709551616).toNat

/-- The byte `data[i]`. -/
def rd (data : List Nat) (i : Nat) : Nat := u8c (data.getD i 0)

/-- The value of `*((u16 *) (data + i))` on a little-endian host. -/
def rd_u16 (data : List Nat) (i : Nat) : Nat := rd data i + 256 * rd data (i + 1)

/-- The value of `*((s16 *) (data + i))` on a little-endian host. -/
def rd_s16 (data : List Nat) (i : Nat) : Int := s16c (rd_u16 data i)

/-- The C truth value `!!(v)` of a bit test, as a Boolean. -/
def tst (v : Nat) : Bool := decide (v ≠ 0)

/-- A C `bool` promoted to `int`. -/
def b2i (b : Bool) : Int := if b then 1 else 0

/-- The result of `memcpy(dst + off, src, n)` on the buffer `dst`. -/
def memcpy_at (dst : List Nat) (off : Nat) (src : List Nat) (n : Nat) : List Nat :=
  dst.take off ++ (List.range n).map (fun i => rd src i) ++ dst.drop (off + n)

/-- An initialised `u8 buf[n] = { ... }`: the listed bytes, then zeros. -/
def u8_array (n : Nat) (init : List Nat) : List Nat :=
  (List.range n).map (fun i => rd init i)

/-! ## Data model (lines 58-111) -/

/-- The `enum modes` of `struct procon_data`. -/
inductive modes where
  | PROCON_MODE_SIMPLE
  | PROCON_MODE_FULL
  | PROCON_MODE_GYRO
  deriving DecidableEq, Repr

open modes

/-- The part of `struct hid_device` the driver looks at: whether
`hdev->bus == BUS_USB`, and the table of output reports
(`report_enum[HID_OUTPUT_REPORT].report_id_hash`), as the length
`hid_report_len` of the report with a given id when there is one. -/
structure hid_device where
  bus_usb : Bool
  report_id_hash : Nat → Option Nat

/-- The driver fields of `struct procon_data` (lines 58-84). Of the pointer
`input` only whether it is non-NULL is kept (it is set by
`procon_input_register`); the list head, `hdev`, the work structs, the
battery fields and the locks carry no data of the protocol. -/
structure procon_data where
  input : Bool
  mode : modes
  mode_new : modes
  analog_dpad : Nat
  gyro_trigger : Nat
  connected : Bool
  order : Nat
  rumble_strong : Nat
  rumble_weak : Nat
  event_cmd : Nat
  time : Nat
  deriving DecidableEq, Repr

/-- The zeroed `procon_data` that `devm_kzalloc` returns in `procon_probe`
(line 476). -/
def procon_data_zero : procon_data :=
  { input := false, mode := PROCON_MODE_SIMPLE, mode_new := PROCON_MODE_SIMPLE, analog_dpad := 0,
    gyro_trigger := 0, connected := false, order := 0, rumble_strong := 0,
    rumble_weak := 0, event_cmd := 0, time := 0 }

/-- The table `ledmap` (lines 88-98). -/
def ledmap : List Nat := [0b0001, 0b0011, 0b0111, 0b1111, 0b1001, 0b0101, 0b1101, 0b0110]

/-- An entry of `hatmap`. -/
structure hat where
  up : Bool
  right : Bool
  down : Bool
  left : Bool
  deriving DecidableEq, Repr

/-- The table `hatmap` (lines 100-111). -/
def hatmap : List hat :=
  [ ⟨true, false, false, false⟩,
    ⟨true, true, false, false⟩,
    ⟨false, true, false, false⟩,
    ⟨false, true, true, false⟩,
    ⟨false, false, true, false⟩,
    ⟨false, false, true, true⟩,
    ⟨false, false, false, true⟩,
    ⟨true, false, false, true⟩,
    ⟨false, false, false, false⟩ ]

/-- The entry `hatmap[i]`. The table has 9 entries; an index past it is a read
outside the table, which the model does not describe (all false). -/
def hatmap_at (i : Nat) : hat := hatmap.getD i ⟨false, false, false, false⟩

/-- The entry `ledmap[i]`. The table has 8 entries; an index past it is a read
outside the table, which the model does not describe (0). -/
def ledmap_at (i : Nat) : Nat := ledmap.getD i 0

/-! ## Sending (lines 113-184) -/

/-- The function `procon_send_report` (lines 113-145): the frame handed to the
transport, `data[0..size)`, or `none` when the USB path returns `-EINVAL`
because the device has no 64-byte output report with the id `data[0]`. The
allocation of line 126 is taken to succeed, and the transport's own return
value, which no caller reads, is not kept. -/
def procon_send_report (hdev : hid_device) (data : List Nat) (size : Nat) :
    Option (List Nat) :=
  let id := rd data 0
  if hdev.bus_usb then
    match hdev.report_id_hash id with
    | none => none
    | some len =>
      if len ≠ 0x40 then none
      else
        -- memcpy(buf, data, size); hid_hw_raw_request(hdev, id, buf, size, ...)
        some ((List.range size).map (fun i => rd data i))
  else
    -- hid_hw_output_report(hdev, data, size)
    some ((List.range size).map (fun i => rd data i))

/-- The function `procon_send_cmd_usb` (lines 147-151). -/
def procon_send_cmd_usb (hdev : hid_device) (cmd : Nat) : Option (List Nat) :=
  let data := u8_array 2 [PROCON_REPORT_SEND_USB, cmd]
  procon_send_report hdev data 2

/-- The function `procon_send_data` (lines 153-164). -/
def procon_send_data (hdev : hid_device) (data : List Nat) (size : Nat) :
    Option (List Nat) :=
  let buf := u8_array 64
    [PROCON_REPORT_SEND_USB, PROCON_USB_DO_CMD, 0x00, 0x31, 0x00, 0x00, 0x00, 0x00]
  let buf := memcpy_at buf 8 data size
  if hdev.bus_usb then
    procon_send_report hdev buf 64
  else
    procon_send_report hdev (buf.drop 8) 49

/-- The function `procon_send_cmd` (lines 166-184). -/
def procon_send_cmd (hdev : hid_device) (cmd arg : Nat) : Option (List Nat) :=
  let data := u8_array 12
    [PROCON_CMD_AND_RUMBLE, 0x00, 0x00, 0x10, 0x40, 0x40, 0x00, 0x10, 0x40, 0x40, cmd, arg]
  procon_send_data hdev data 12

/-! ## Rumble (lines 352-382) -/

/-- The 12-byte body `data` that `procon_work_rumble` builds (lines 358-378),
from the stored magnitudes. The assignments are made in the order of the
source, each right to left. -/
def rumble_body (drvdata : procon_data) : List Nat :=
  let data := u8_array 12 [PROCON_CMD_RUMBLE_ONLY, 0x00]
  let h_freq := u8c 0x20
  let l_freq := u8c 0x28
  let h_amp := u8c ((drvdata.rumble_weak / 649) * 2)
  let l_amp1 := u8c (drvdata.rumble_strong / 649)
  let l_amp2 := u8c ((l_amp1 % 2) * 128)
  let l_amp1 := u8c ((l_amp1 / 2) + 64)
  -- data[2] = data[6] = h_freq;
  let data := data.set 6 h_freq
  let data := data.set 2 (rd data 6)
  -- data[4] = data[9] = l_freq;
  let data := data.set 9 l_freq
  let data := data.set 4 (rd data 9)
  -- data[3] = data[7] = h_amp;
  let data := data.set 7 h_amp
  let data := data.set 3 (rd data 7)
  -- data[4] = data[8] += l_amp2;
  let data := data.set 8 (u8c (rd data 8 + l_amp2))
  let data := data.set 4 (rd data 8)
  -- data[5] = data[9] = l_amp1;
  let data := data.set 9 l_amp1
  let data := data.set 5 (rd data 9)
  data

/-- The function `procon_work_rumble` (lines 352-382): the frame sent. -/
def procon_work_rumble (hdev : hid_device) (drvdata : procon_data) : Option (List Nat) :=
  procon_send_data hdev (rumble_body drvdata) 12

/-- The function `procon_play` (lines 384-395) for an `FF_RUMBLE` effect with
the given `u16` magnitudes: the magnitudes are stored and the rumble job
scheduled. -/
def procon_play (drvdata : procon_data) (weak_magnitude strong_magnitude : Nat) :
    procon_data :=
  { drvdata with rumble_weak := u16c weak_magnitude,
                 rumble_strong := u16c strong_magnitude }

/-! ## Input reports (lines 545-839) -/

/-- The values handed to the input device by one report, up to `input_sync`:
the six `input_report_abs` values and the eighteen `input_report_key` values
(a key value `v` is delivered as `!!v`). -/
structure input_frame where
  ABS_X : Int
  ABS_Y : Int
  ABS_RX : Int
  ABS_RY : Int
  ABS_TILT_X : Int
  ABS_TILT_Y : Int
  BTN_A : Bool
  BTN_B : Bool
  BTN_X : Bool
  BTN_Y : Bool
  BTN_TL : Bool
  BTN_TR : Bool
  BTN_TL2 : Bool
  BTN_TR2 : Bool
  BTN_SELECT : Bool
  BTN_START : Bool
  BTN_MODE : Bool
  BTN_EXTRA : Bool
  BTN_THUMBL : Bool
  BTN_THUMBR : Bool
  BTN_DPAD_UP : Bool
  BTN_DPAD_DOWN : Bool
  BTN_DPAD_LEFT : Bool
  BTN_DPAD_RIGHT : Bool
  deriving DecidableEq, Repr

/-- The five locals `home_button`, `left_button`, `right_button`,
`triggerl_button`, `triggerr_button` (lines 553-557). -/
structure gesture_buttons where
  home_button : Bool
  left_button : Bool
  right_button : Bool
  triggerl_button : Bool
  triggerr_button : Bool
  deriving DecidableEq, Repr

/-- One axis of the gyro fusion, the statement of lines 629-634 (repeated at
635-640, 646-651 and 652-657): `x` and `gx` are `s16`, their sum is taken in
`int` and converted back. -/
def gyro_fuse (x gx : Int) : Int :=
  if x < 0 ∧ gx < 0 ∧ s16c (x + gx) > 0 then -0x7FFF
  else if x > 0 ∧ gx > 0 ∧ s16c (x + gx) < 0 then 0x7FFF
  else s16c (x + gx)

/-- The six axis values of the branch `mode != PROCON_MODE_SIMPLE`, in the
order `x, y, rx, ry, gx, gy` (lines 612-675). -/
def full_axes (analog_dpad gyro_trigger : Nat) (data : List Nat) :
    Int × Int × Int × Int × Int × Int :=
  let x : Int := s16c (((rd_u16 data 6 <<< 4) &&& 0xFFF0 : Nat))
  let y : Int := s16c ((rd_u16 data 7 &&& 0xFFF0 : Nat))
  let rx : Int := s16c (((rd_u16 data 9 <<< 4) &&& 0xFFF0 : Nat))
  let ry : Int := s16c ((rd_u16 data 10 &&& 0xFFF0 : Nat))
  let gy : Int := s16c ((rd_u16 data 13 * 7 : Nat))
  let gx : Int := s16c ((rd_u16 data 15 * 7 : Nat))
  if analog_dpad = 0 then
    let x := s16c (x - 0x7FFF)
    let y := s16c (0x7FFF - y)
    let rx := s16c (rx - 0x7FFF)
    let ry := s16c (0x7FFF - ry)
    if gyro_trigger = 1 ∧ tst (rd data 5 &&& 0x40) = true then
      (gyro_fuse x gx, gyro_fuse y gy, rx, ry, 0, 0)
    else if gyro_trigger = 2 ∧ tst (rd data 3 &&& 0x40) = true then
      (x, y, gyro_fuse rx gx, gyro_fuse ry gy, 0, 0)
    else
      (x, y, rx, ry, gx, gy)
  else if analog_dpad = 1 then
    let x := s16c (b2i (tst (rd data 5 &&& 0x04)) * 0x7FFF - b2i (tst (rd data 5 &&& 0x08)) * 0x7FFF)
    let y := s16c (b2i (tst (rd data 5 &&& 0x01)) * 0x7FFF - b2i (tst (rd data 5 &&& 0x02)) * 0x7FFF)
    let rx := s16c (rx - 0x7FFF)
    let ry := s16c (0x7FFF - ry)
    (x, y, rx, ry, gx, gy)
  else
    let x := s16c (x - 0x7FFF)
    let y := s16c (0x7FFF - y)
    let rx := s16c (b2i (tst (rd data 5 &&& 0x04)) * 0x7FFF - b2i (tst (rd data 5 &&& 0x08)) * 0x7FFF)
    let ry := s16c (b2i (tst (rd data 5 &&& 0x01)) * 0x7FFF - b2i (tst (rd data 5 &&& 0x02)) * 0x7FFF)
    (x, y, rx, ry, gx, gy)

/-- The branch `mode != PROCON_MODE_SIMPLE` of `procon_raw_event`
(lines 611-718): the values reported and the gesture buttons. -/
def full_layout (analog_dpad gyro_trigger : Nat) (data : List Nat) :
    input_frame × gesture_buttons :=
  let a := full_axes analog_dpad gyro_trigger data
  ({ ABS_X := a.1, ABS_Y := a.2.1, ABS_RX := a.2.2.1, ABS_RY := a.2.2.2.1,
     ABS_TILT_X := a.2.2.2.2.1, ABS_TILT_Y := a.2.2.2.2.2,
     BTN_A := tst (rd data 3 &&& 0x08),
     BTN_B := tst (rd data 3 &&& 0x04),
     BTN_X := tst (rd data 3 &&& 0x02),
     BTN_Y := tst (rd data 3 &&& 0x01),
     BTN_TL := tst (rd data 5 &&& 0x40),
     BTN_TR := tst (rd data 3 &&& 0x40),
     BTN_TL2 := tst (rd data 5 &&& 0x80),
     BTN_TR2 := tst (rd data 3 &&& 0x80),
     BTN_SELECT := tst (rd data 4 &&& 0x01),
     BTN_START := tst (rd data 4 &&& 0x02),
     BTN_MODE := tst (rd data 4 &&& 0x10),
     BTN_EXTRA := tst (rd data 4 &&& 0x20),
     BTN_THUMBL := tst (rd data 4 &&& 0x08),
     BTN_THUMBR := tst (rd data 4 &&& 0x04),
     BTN_DPAD_UP := if analog_dpad = 0 then tst (rd data 5 &&& 0x02) else false,
     BTN_DPAD_DOWN := if analog_dpad = 0 then tst (rd data 5 &&& 0x01) else false,
     BTN_DPAD_LEFT := if analog_dpad = 0 then tst (rd data 5 &&& 0x08) else false,
     BTN_DPAD_RIGHT := if analog_dpad = 0 then tst (rd data 5 &&& 0x04) else false },
   { home_button := tst (rd data 4 &&& 0x10),
     left_button := tst (rd data 4 &&& 0x08),
     right_button := tst (rd data 4 &&& 0x04),
     triggerl_button := tst (rd data 5 &&& 0x40),
     triggerr_button := tst (rd data 3 &&& 0x40) })

/-- The four stick values of the branch `mode == PROCON_MODE_SIMPLE`, in the
order `x, y, rx, ry` (lines 721-745). -/
def simple_axes (analog_dpad : Nat) (data : List Nat) : Int × Int × Int × Int :=
  let x : Int := rd_s16 data 4
  let y : Int := rd_s16 data 6
  let rx : Int := rd_s16 data 8
  let ry : Int := rd_s16 data 10
  let h := hatmap_at (rd data 3)
  if analog_dpad = 0 then
    (s16c (x - 0x7FFF), s16c (y - 0x7FFF), s16c (rx - 0x7FFF), s16c (ry - 0x7FFF))
  else if analog_dpad = 1 then
    (s16c (b2i h.right * 0x7FFF - b2i h.left * 0x7FFF),
     s16c (b2i h.down * 0x7FFF - b2i h.up * 0x7FFF),
     s16c (rx - 0x7FFF), s16c (ry - 0x7FFF))
  else
    (s16c (x - 0x7FFF), s16c (y - 0x7FFF),
     s16c (b2i h.right * 0x7FFF - b2i h.left * 0x7FFF),
     s16c (b2i h.down * 0x7FFF - b2i h.up * 0x7FFF))

/-- The branch `mode == PROCON_MODE_SIMPLE` of `procon_raw_event`
(lines 720-788): the values reported and the gesture buttons. -/
def simple_layout (analog_dpad : Nat) (data : List Nat) :
    input_frame × gesture_buttons :=
  let a := simple_axes analog_dpad data
  let h := hatmap_at (rd data 3)
  ({ ABS_X := a.1, ABS_Y := a.2.1, ABS_RX := a.2.2.1, ABS_RY := a.2.2.2,
     ABS_TILT_X := 0x00, ABS_TILT_Y := 0x00,
     BTN_A := tst (rd data 1 &&& 0x02),
     BTN_B := tst (rd data 1 &&& 0x01),
     BTN_X := tst (rd data 1 &&& 0x08),
     BTN_Y := tst (rd data 1 &&& 0x04),
     BTN_TL := tst (rd data 1 &&& 0x10),
     BTN_TR := tst (rd data 1 &&& 0x20),
     BTN_TL2 := tst (rd data 1 &&& 0x40),
     BTN_TR2 := tst (rd data 1 &&& 0x80),
     BTN_SELECT := tst (rd data 2 &&& 0x01),
     BTN_START := tst (rd data 2 &&& 0x02),
     BTN_MODE := tst (rd data 2 &&& 0x10),
     BTN_EXTRA := tst (rd data 2 &&& 0x20),
     BTN_THUMBL := tst (rd data 2 &&& 0x04),
     BTN_THUMBR := tst (rd data 2 &&& 0x08),
     BTN_DPAD_UP := if analog_dpad = 0 then h.up else false,
     BTN_DPAD_DOWN := if analog_dpad = 0 then h.down else false,
     BTN_DPAD_LEFT := if analog_dpad = 0 then h.left else false,
     BTN_DPAD_RIGHT := if analog_dpad = 0 then h.right else false },
   { home_button := tst (rd data 2 &&& 0x10),
     left_button := tst (rd data 2 &&& 0x04),
     right_button := tst (rd data 2 &&& 0x08),
     triggerl_button := tst (rd data 1 &&& 0x10),
     triggerr_button := tst (rd data 1 &&& 0x20) })

/-- The home-button gesture of `procon_raw_event` (lines 791-836). `now` is the
value `ktime_get_ns()` returns, `analog_dpad` and `drvtime` are the copies read
at lines 564 and 566. The result is the new `drvdata` and the number of calls
of `schedule_work(&drvdata->worker_event)`. -/
def home_gesture (drvdata : procon_data) (analog_dpad drvtime now : Nat)
    (b : gesture_buttons) : procon_data × Nat :=
  -- lines 791-829: the fields written, the jobs scheduled, the local `time`
  let r : procon_data × Nat × Nat :=
    if b.home_button then
      let time := now
      if drvtime > 1 ∧ u64c ((time : Int) - (drvtime : Int)) > 2000000000 then
        if !(b.left_button || b.right_button) then
          ({ drvdata with
              event_cmd := PROCON_EVENT_TOGGLE_GYRO,
              gyro_trigger := if b.triggerl_button then 1 else if b.triggerr_button then 2 else 0,
              time := 1 }, 1, time)
        else if b.left_button && !b.right_button then
          ({ drvdata with
              event_cmd := PROCON_CMD_LED,
              analog_dpad := if analog_dpad = 1 then 0 else 1,
              time := 1 }, 1, time)
        else if !b.left_button && b.right_button then
          ({ drvdata with
              event_cmd := PROCON_CMD_LED,
              analog_dpad := if analog_dpad = 2 then 0 else 2,
              time := 1 }, 1, time)
        else (drvdata, 0, time)
      else (drvdata, 0, time)
    else (drvdata, 0, 0)
  -- lines 831-836
  if (!b.home_button ∧ drvtime ≠ 0) ∨ (b.home_button ∧ drvtime = 0) then
    ({ r.1 with time := r.2.2 }, r.2.1)
  else (r.1, r.2.1)

/-- What one call of `procon_raw_event` does: the new `drvdata`, the frame
delivered to the input device by `input_sync` (if any), the number of calls
of `schedule_work(&drvdata->worker_event)`, and the return value. -/
structure raw_event_result where
  drvdata : procon_data
  frame : Option input_frame
  jobs : Nat
  retval : Int
  deriving DecidableEq, Repr

/-- The function `procon_raw_event` (lines 545-839). `now` is the value of
`ktime_get_ns()` should the function call it. -/
def procon_raw_event (drvdata : procon_data) (now : Nat) (data : List Nat) (size : Int) :
    raw_event_result :=
  -- lines 562-567
  let mode := drvdata.mode
  let analog_dpad := drvdata.analog_dpad
  let gyro_trigger := drvdata.gyro_trigger
  let drvtime := drvdata.time
  -- lines 571-577
  let stale : Bool := rd data PROCON_REPORT_TYPE = PROCON_REPORT_INPUT_FULL
    ∧ rd data 13 ≠ 0x00 ∧ mode = PROCON_MODE_FULL
  let drvdata := if stale then { drvdata with mode := PROCON_MODE_GYRO } else drvdata
  let mode := if stale then PROCON_MODE_GYRO else mode
  -- lines 578-579
  if !drvdata.input ∨ size < 1 then ⟨drvdata, none, 0, EINVAL_neg⟩
  else
    -- lines 581-585
    let wrapped : Bool := rd data PROCON_REPORT_TYPE = PROCON_REPORT_REPLY_USB
    -- (`size -= 10` as well; `size` is not read again)
    let data := if wrapped then data.drop 10 else data
    -- lines 587-605
    let ack : Bool := rd data PROCON_REPORT_TYPE = PROCON_REPORT_REPLY
      ∧ (rd data PROCON_REPORT_CMD_ACK = PROCON_CMD_MODE
        ∨ rd data PROCON_REPORT_CMD_ACK = PROCON_CMD_GYRO
        ∨ rd data PROCON_REPORT_CMD_ACK = PROCON_CMD_LED
        ∨ rd data PROCON_REPORT_CMD_ACK = PROCON_CMD_LED_HOME)
    let drvdata :=
      if ack then { drvdata with event_cmd := rd data PROCON_REPORT_CMD_ACK } else drvdata
    let jobs := if ack then 1 else 0
    -- lines 607-837
    if rd data PROCON_REPORT_TYPE = PROCON_REPORT_INPUT_FULL
        ∨ rd data PROCON_REPORT_TYPE = PROCON_REPORT_INPUT_SIMPLE then
      let fb :=
        if mode ≠ PROCON_MODE_SIMPLE then full_layout analog_dpad gyro_trigger data
        else simple_layout analog_dpad data
      let g := home_gesture drvdata analog_dpad drvtime now fb.2
      ⟨g.1, some fb.1, jobs + g.2, 0⟩
    else ⟨drvdata, none, jobs, 0⟩

/-! ## Jobs (lines 186-350) and the registry (lines 84, 523-543) -/

/-- The function `procon_work_connect` (lines 186-213): the new `drvdata` and
the frames sent, in order. -/
def procon_work_connect (hdev : hid_device) (drvdata : procon_data) :
    procon_data × List (List Nat) :=
  if hdev.bus_usb then
    let s1 := procon_send_cmd_usb hdev PROCON_USB_ENABLE
    let s2 := procon_send_cmd_usb hdev PROCON_USB_HANDSHAKE
    let s3 := procon_send_cmd hdev PROCON_CMD_MODE PROCON_ARG_INPUT_FULL
    ({ drvdata with mode := PROCON_MODE_FULL, mode_new := PROCON_MODE_FULL },
     s1.toList ++ s2.toList ++ s3.toList)
  else
    let s1 := procon_send_cmd hdev PROCON_CMD_MODE PROCON_ARG_INPUT_SIMPLE
    ({ drvdata with mode := PROCON_MODE_SIMPLE, mode_new := PROCON_MODE_SIMPLE },
     s1.toList)

/-- The array `data_homelight` of `procon_work_event` (lines 224-240). -/
def data_homelight : List Nat :=
  u8_array 34 [PROCON_CMD_AND_RUMBLE, 0x00, 0x00, 0x90, 0x20, 0x64, 0x00, 0x90, 0x20, 0x64,
    PROCON_CMD_LED_HOME, 0x0F, 0xF1, 0x20]

/-- The loop of lines 262-268, entered with the counter `order` and run for
at most `fuel` iterations: the value of `order` after the loop, and the
`drvdata` and `connections` it leaves. `self` stands for the pointer `drvdata`
stored in the table. The loop is entered at `order = 0` with `fuel = 8`, so
the fuel runs out only when `order < 8` fails. -/
def assign_loop (self : Nat) :
    Nat → Nat → procon_data → List (Option Nat) → Nat × procon_data × List (Option Nat)
  | 0, order, drvdata, connections => (order, drvdata, connections)
  | fuel + 1, order, drvdata, connections =>
    if order < 8 then
      if connections.getD order none = none then
        (order, { drvdata with order := order }, connections.set order (some self))
      else assign_loop self fuel (order + 1) drvdata connections
    else (order, drvdata, connections)

/-- What one run of `procon_work_event` does: the new `drvdata`, the new
table `connections`, and the frames sent, in order. -/
structure work_event_result where
  drvdata : procon_data
  connections : List (Option Nat)
  sent : List (List Nat)
  deriving DecidableEq, Repr

/-- The registration block of `procon_work_event` (lines 256-277), run under
`connections_lock`. -/
def register_connection (hdev : hid_device) (self : Nat) (drvdata : procon_data)
    (connections : List (Option Nat)) : work_event_result :=
  if !drvdata.connected then
    let drvdata := { drvdata with connected := true }
    -- lines 262-268
    let r := assign_loop self 8 0 drvdata connections
    let order := r.1
    let drvdata := r.2.1
    let connections := r.2.2
    -- lines 269-273
    let past : Bool := order = 9
    let order := if past then order - 1 else order
    let drvdata := if past then { drvdata with order := order } else drvdata
    -- line 275
    ⟨drvdata, connections, (procon_send_cmd hdev PROCON_CMD_LED (u8c (ledmap_at order))).toList⟩
  else ⟨drvdata, connections, []⟩

/-- The function `procon_work_event` (lines 215-350). `self` stands for the
pointer `drvdata`, `connections` for the global table. `msleep` and the log
lines are not modelled. -/
def procon_work_event (hdev : hid_device) (self : Nat) (drvdata : procon_data)
    (connections : List (Option Nat)) : work_event_result :=
  -- lines 244-249
  let event := u8c drvdata.event_cmd
  let mode := drvdata.mode
  let mode_new := drvdata.mode_new
  if event = PROCON_CMD_MODE then
    let r := register_connection hdev self drvdata connections
    let drvdata := r.drvdata
    -- lines 280-289
    if mode = PROCON_MODE_SIMPLE ∧ mode_new = PROCON_MODE_GYRO then
      let s := procon_send_cmd hdev PROCON_CMD_GYRO 1
      let mode_new := PROCON_MODE_FULL
      ⟨{ drvdata with mode := mode_new }, r.connections, r.sent ++ s.toList⟩
    else if mode = PROCON_MODE_GYRO ∧ mode_new = PROCON_MODE_SIMPLE then
      let s := procon_send_data hdev (data_homelight.set 12 0x21) 34
      ⟨{ drvdata with mode := mode_new }, r.connections, r.sent ++ s.toList⟩
    else
      ⟨{ drvdata with mode := mode_new }, r.connections, r.sent⟩
  else if event = PROCON_CMD_GYRO then
    if mode_new = PROCON_MODE_GYRO ∨ mode_new = PROCON_MODE_FULL then
      let drvdata := { drvdata with mode := drvdata.mode_new }
      let s := procon_send_data hdev
        (data_homelight.set 12 (if mode_new = PROCON_MODE_GYRO then 0x20 else 0x21)) 34
      ⟨drvdata, connections, s.toList⟩
    else
      ⟨drvdata, connections,
        (procon_send_cmd hdev PROCON_CMD_MODE PROCON_ARG_INPUT_SIMPLE).toList⟩
  else if event = PROCON_EVENT_TOGGLE_GYRO then
    if mode = PROCON_MODE_SIMPLE then
      let s := procon_send_cmd hdev PROCON_CMD_MODE PROCON_ARG_INPUT_FULL
      ⟨{ drvdata with mode_new := PROCON_MODE_GYRO }, connections, s.toList⟩
    else if mode = PROCON_MODE_FULL then
      let s := procon_send_cmd hdev PROCON_CMD_GYRO 1
      ⟨{ drvdata with mode_new := PROCON_MODE_GYRO }, connections, s.toList⟩
    else
      let s := procon_send_cmd hdev PROCON_CMD_GYRO 0
      let mode_new := if hdev.bus_usb then PROCON_MODE_FULL else PROCON_MODE_SIMPLE
      ⟨{ drvdata with mode_new := mode_new }, connections, s.toList⟩
  else if event = PROCON_CMD_LED then
    if mode ≠ PROCON_MODE_GYRO then
      ⟨drvdata, connections, (procon_send_data hdev (data_homelight.set 12 0x21) 34).toList⟩
    else ⟨drvdata, connections, []⟩
  else if event = PROCON_CMD_LED_HOME then
    ⟨drvdata, connections, (procon_send_cmd hdev 0x00 0x00).toList⟩
  else ⟨drvdata, connections, []⟩

/-- The registry part of `procon_remove` (lines 534-537): the table after
`connections[order] = NULL`, with `u8 order = drvdata->order`. -/
def procon_remove (drvdata : procon_data) (connections : List (Option Nat)) :
    List (Option Nat) :=
  connections.set (u8c drvdata.order) none

/-- The `drvdata` of a device after a successful `procon_probe`
(lines 462-513): zeroed by `devm_kzalloc`, with `input` set by
`procon_input_register`; the connect job is scheduled. -/
def procon_probe : procon_data :=
  { procon_data_zero with input := true }

/-! ## Sample devices -/

/-- A wired controller: USB bus, with the 64-byte output report 0x80. -/
def wired : hid_device := ⟨true, fun id => if id = 0x80 then some 0x40 else none⟩

/-- A wireless controller: Bluetooth bus. -/
def wireless : hid_device := ⟨false, fun _ => none⟩

/-! ## Runs of the driver -/

/-- The `drvdata` after lines 571-577 of `procon_raw_event`: a report tagged
0x30 with a non-zero byte at offset 13, arriving while the stored mode is Full,
sets the stored mode to Gyro. -/
def stale_gyro (drvdata : procon_data) (data : List Nat) : procon_data :=
  if rd data 0 = 0x30 ∧ rd data 13 ≠ 0 ∧ drvdata.mode = PROCON_MODE_FULL
  then { drvdata with mode := PROCON_MODE_GYRO } else drvdata

/-- The gesture buttons `procon_raw_event` reads from an input report: those of
the full layout when the stored mode is not Simple, those of the simple layout
otherwise (line 610; the promotion of line 574 goes from Full to Gyro and does
not change the choice). -/
def report_buttons (drvdata : procon_data) (data : List Nat) : gesture_buttons :=
  if drvdata.mode ≠ PROCON_MODE_SIMPLE then
    (full_layout drvdata.analog_dpad drvdata.gyro_trigger data).2
  else (simple_layout drvdata.analog_dpad data).2

/-- The steps of one connection: the connect job, the arrival of a report, a
run of the job `worker_event` (an ack job or a gesture job, by `event_cmd`),
the rumble job, and a rumble request (`procon_play`). -/
inductive conn_step where
  | connect : conn_step
  | report (now : Nat) (data : List Nat) (size : Int) : conn_step
  | event : conn_step
  | rumble : conn_step
  | play (weak_magnitude strong_magnitude : Nat) : conn_step

/-- The `drvdata` and the table `connections` after one step. The rumble job
only sends. -/
def run_step (hdev : hid_device) (self : Nat) (s : conn_step) (drvdata : procon_data)
    (connections : List (Option Nat)) : procon_data × List (Option Nat) :=
  match s with
  | .connect => ((procon_work_connect hdev drvdata).1, connections)
  | .report now data size => ((procon_raw_event drvdata now data size).drvdata, connections)
  | .event =>
    ((procon_work_event hdev self drvdata connections).drvdata,
     (procon_work_event hdev self drvdata connections).connections)
  | .rumble => (drvdata, connections)
  | .play weak_magnitude strong_magnitude =>
    (procon_play drvdata weak_magnitude strong_magnitude, connections)

/-- The connections `ids`, each fresh from `procon_probe`, registered one after
the other by the ack job on their first AckReply(SetMode): the slot recorded
for each, in order, and the final table. -/
def register_all (hdev : hid_device) :
    List Nat → List (Option Nat) → List Nat × List (Option Nat)
  | [], connections => ([], connections)
  | self :: rest, connections =>
    let r := procon_work_event hdev self
      { procon_probe with event_cmd := PROCON_CMD_MODE } connections
    let q := register_all hdev rest r.connections
    (r.drvdata.order :: q.1, q.2)

/-! ## The acknowledgement chain -/

/-- Whether `procon_send_report` hands the frames of `procon_send_data` to the
transport: always off USB, and on USB when the device has the 64-byte output
report 0x80 (lines 120-124). -/
def can_send (hdev : hid_device) : Bool :=
  !hdev.bus_usb || (hdev.report_id_hash 0x80 == some 0x40)

/-- The id of the command a frame of `procon_send_data` carries: the byte at
offset 10 of the body, which follows the 8-byte header on USB. -/
def frame_cmd (hdev : hid_device) (frame : List Nat) : Nat :=
  if hdev.bus_usb then rd frame 18 else rd frame 10

/-- The acknowledgement of the command `id`, in the shape `procon_raw_event`
reads (lines 581-600): the tag 0x21 with the id at offset 14, behind a 10-byte
prefix that starts with 0x81 on USB. -/
def ack_reply (hdev : hid_device) (id : Nat) : List Nat :=
  (if hdev.bus_usb then PROCON_REPORT_REPLY_USB :: List.replicate 9 0 else [])
    ++ [PROCON_REPORT_REPLY] ++ List.replicate 13 0 ++ [id]

/-- The chain of acknowledgements of the commands `pending` (their ids, oldest
first), under the assumption that the device acknowledges every command once,
in order, and that the job an acknowledgement schedules has run before the next
one arrives: the acknowledgement goes through `procon_raw_event`; if that
schedules the job, `procon_work_event` runs and the commands it sends join the
pending ones. The result is the final state, the final table and the frames
sent, in order; `none` when the `fuel` acknowledgements do not exhaust the
pending commands. -/
def ack_chain (hdev : hid_device) (self : Nat) :
    Nat → procon_data → List (Option Nat) → List Nat → Option work_event_result
  | _, drvdata, connections, [] => some ⟨drvdata, connections, []⟩
  | 0, _, _, _ :: _ => none
  | fuel + 1, drvdata, connections, id :: pending =>
    let e := procon_raw_event drvdata 0 (ack_reply hdev id) (ack_reply hdev id).length
    if e.jobs = 0 then ack_chain hdev self fuel e.drvdata connections pending
    else
      let w := procon_work_event hdev self e.drvdata connections
      (ack_chain hdev self fuel w.drvdata w.connections
          (pending ++ w.sent.map (frame_cmd hdev))).map
        (fun r => ⟨r.drvdata, r.connections, w.sent ++ r.sent⟩)

/-- One run of the job `worker_event` on the stored `event_cmd` (an
acknowledged id or a gesture), followed by the chain of acknowledgements of the
commands it sends. -/
def job_chain (hdev : hid_device) (self : Nat) (fuel : Nat) (drvdata : procon_data)
    (connections : List (Option Nat)) : Option work_event_result :=
  let w := procon_work_event hdev self drvdata connections
  (ack_chain hdev self fuel w.drvdata w.connections (w.sent.map (frame_cmd hdev))).map
    (fun r => ⟨r.drvdata, r.connections, w.sent ++ r.sent⟩)

/-- What the chains are compared by: the final `input`, mode, `mode_new` and
`connected`, and the ids of the commands sent. -/
def chain_summary (hdev : hid_device) (r : Option work_event_result) :
    Option (Bool × modes × modes × Bool × List Nat) :=
  r.map (fun r => (r.drvdata.input, r.drvdata.mode, r.drvdata.mode_new, r.drvdata.connected,
    r.sent.map (frame_cmd hdev)))

/-- A device with the given bus and the given ability to send. -/
def canon_dev (usb ok : Bool) : hid_device :=
  ⟨usb, fun _ => if ok then some 0x40 else none⟩

/-- A connection state with the given event, modes and registration, and the
other fields as `procon_probe` leaves them. -/
def canon_data (event : Nat) (mode mode_new : modes) (connected : Bool) : procon_data :=
  { procon_probe with event_cmd := event, mode := mode, mode_new := mode_new,
                      connected := connected }

/-! ## Holds of the Home button -/

theorem rumble_body_eq (d : procon_data) :
    rumble_body d = [0x10, 0, 0x20, u8c (d.rumble_weak / 649 * 2),
      u8c (u8c (d.rumble_strong / 649) % 2 * 128), u8c (u8c (d.rumble_strong / 649) / 2 + 64),
      0x20, u8c (d.rumble_weak / 649 * 2),
      u8c (u8c (d.rumble_strong / 649) % 2 * 128), u8c (u8c (d.rumble_strong / 649) / 2 + 64),
      0, 0] := by
  simp [rumble_body, u8_array, rd, List.range, List.range.loop, PROCON_CMD_RUMBLE_ONLY, u8c]

theorem send_cmd_usb_eq (hdev : hid_device) (cmd arg : Nat) (h1 : hdev.bus_usb = true)
    (h2 : hdev.report_id_hash 0x80 = some 0x40) :
    procon_send_cmd hdev cmd arg
      = some ([0x80, 0x92, 0x00, 0x31, 0x00, 0x00, 0x00, 0x00]
          ++ [0x01, 0x00, 0x00, 0x10, 0x40, 0x40, 0x00, 0x10, 0x40, 0x40, u8c cmd, u8c arg]
          ++ List.replicate 44 0) := by
  simp [procon_send_cmd, procon_send_data, procon_send_report, memcpy_at, u8_array, rd, h1, h2,
    List.range, List.range.loop, u8c, PROCON_REPORT_SEND_USB, PROCON_USB_DO_CMD,
    PROCON_CMD_AND_RUMBLE, List.replicate]

theorem send_cmd_bt_eq (hdev : hid_device) (cmd arg : Nat) (h1 : hdev.bus_usb = false) :
    procon_send_cmd hdev cmd arg
      = some ([0x01, 0x00, 0x00, 0x10, 0x40, 0x40, 0x00, 0x10, 0x40, 0x40, u8c cmd, u8c arg]
          ++ List.replicate 37 0) := by
  simp [procon_send_cmd, procon_send_data, procon_send_report, memcpy_at, u8_array, rd, h1,
    List.range, List.range.loop, u8c, PROCON_REPORT_SEND_USB, PROCON_USB_DO_CMD,
    PROCON_CMD_AND_RUMBLE, List.replicate]

theorem u8c_of_lt {n : Nat} (h : n < 256) : u8c n = n := by
  unfold u8c; omega

theorem u8c_idem (n : Nat) : u8c (u8c n) = u8c n := by
  unfold u8c; omega

/-! ## Bit fields as arithmetic -/

theorem land_shl (n m k : Nat) : n &&& (m <<< k) = ((n >>> k) &&& m) <<< k := by
  apply Nat.eq_of_testBit_eq
  intro i
  simp only [Nat.testBit_and, Nat.testBit_shiftLeft, Nat.testBit_shiftRight]
  by_cases h : k ≤ i
  · have : k + (i - k) = i := by omega
    simp [h, this]
  · simp [h]

theorem land_fff0 (n : Nat) : n &&& 0xFFF0 = n / 16 % 4096 * 16 := by
  have h := land_shl n 0xFFF 4
  have e : (0xFFF : Nat) <<< 4 = 0xFFF0 := by decide
  rw [e] at h
  rw [h, Nat.shiftLeft_eq, Nat.shiftRight_eq_div_pow]
  have := Nat.and_pow_two_sub_one_eq_mod (n / 2 ^ 4) 12
  norm_num at this ⊢
  exact this

theorem land_0f (n : Nat) : n &&& 0x0F = n % 16 := by
  have := Nat.and_pow_two_sub_one_eq_mod n 4
  norm_num at this ⊢
  exact this

theorem lor_shl (a b k : Nat) (h : a < 2 ^ k) : a ||| (b <<< k) = a + 2 ^ k * b := by
  rw [Nat.shiftLeft_eq, Nat.or_comm, Nat.mul_comm b, ← Nat.mul_add_lt_is_or h b]
  omega

theorem rd_lt (data : List Nat) (i : Nat) : rd data i < 256 := by
  unfold rd u8c; omega

theorem rd_drop (data : List Nat) (k i : Nat) : rd (data.drop k) i = rd data (k + i) := by
  simp [rd, List.getD_eq_getElem?_getD, List.getElem?_drop]

/-- The masked horizontal word of lines 613 and 615 is the 12-bit field
`data[i] | (data[i+1] & 0x0F) << 8`, shifted left by 4. -/
theorem horiz_field (data : List Nat) (i : Nat) :
    ((rd_u16 data i <<< 4) &&& 0xFFF0) = (rd data i ||| ((rd data (i + 1) &&& 0x0F) <<< 8)) <<< 4
    ∧ ((rd_u16 data i <<< 4) &&& 0xFFF0) ≤ 0xFFF0 := by
  have ha := rd_lt data i
  have hb := rd_lt data (i + 1)
  unfold rd_u16
  rw [land_fff0, land_0f, lor_shl _ _ 8 (by omega)]
  simp only [Nat.shiftLeft_eq]
  omega

/-- The masked vertical word of lines 614 and 616 is the 12-bit field
`(data[i] >> 4) | data[i+1] << 4`, shifted left by 4. -/
theorem vert_field (data : List Nat) (i : Nat) :
    (rd_u16 data i &&& 0xFFF0) = ((rd data i >>> 4) ||| (rd data (i + 1) <<< 4)) <<< 4
    ∧ (rd_u16 data i &&& 0xFFF0) ≤ 0xFFF0 := by
  have ha := rd_lt data i
  have hb := rd_lt data (i + 1)
  unfold rd_u16
  rw [land_fff0, Nat.shiftRight_eq_div_pow, lor_shl _ _ 4 (by norm_num; omega)]
  simp only [Nat.shiftLeft_eq]
  norm_num
  omega

theorem recentre_horiz (v : Nat) (h : v ≤ 0xFFF0) :
    s16c (s16c (v : Int) - 0x7FFF) = (v : Int) - 0x7FFF := by
  unfold s16c; omega

theorem recentre_vert (v : Nat) (h : v ≤ 0xFFF0) :
    s16c (0x7FFF - s16c (v : Int)) = -((v : Int) - 0x7FFF) := by
  unfold s16c; omega

/-! ## The report path on an input report -/

/-- The axes of the full layout with `analog_dpad` off and no fusion. -/
theorem full_axes_plain (g : Nat) (data : List Nat)
    (hfuse : ¬ (g = 1 ∧ tst (rd data 5 &&& 0x40) = true)
      ∧ ¬ (g = 2 ∧ tst (rd data 3 &&& 0x40) = true)) :
    full_axes 0 g data =
      ((((rd_u16 data 6 <<< 4) &&& 0xFFF0 : Nat) : Int) - 0x7FFF,
       -(((rd_u16 data 7 &&& 0xFFF0 : Nat) : Int) - 0x7FFF),
       (((rd_u16 data 9 <<< 4) &&& 0xFFF0 : Nat) : Int) - 0x7FFF,
       -(((rd_u16 data 10 &&& 0xFFF0 : Nat) : Int) - 0x7FFF),
       s16c ((rd_u16 data 15 * 7 : Nat)), s16c ((rd_u16 data 13 * 7 : Nat))) := by
  unfold full_axes
  simp only [if_true, if_neg hfuse.1, if_neg hfuse.2]
  rw [recentre_horiz _ (horiz_field data 6).2, recentre_horiz _ (horiz_field data 9).2,
    recentre_vert _ (vert_field data 7).2, recentre_vert _ (vert_field data 10).2]

/-- An input report (first byte 0x30 or 0x3F) always produces a frame; the
layout is the full one when the stored mode is not Simple, the simple one
otherwise. -/
theorem raw_event_input (d : procon_data) (now : Nat) (data : List Nat) (size : Int)
    (hin : d.input = true) (hsize : 1 ≤ size)
    (htag : rd data 0 = 0x30 ∨ rd data 0 = 0x3F) :
    (procon_raw_event d now data size).frame
      = some (if d.mode ≠ PROCON_MODE_SIMPLE
          then (full_layout d.analog_dpad d.gyro_trigger data).1
          else (simple_layout d.analog_dpad data).1)
    ∧ (procon_raw_event d now data size).retval = 0 := by
  have hs : ¬ size < 1 := by omega
  have h81 : rd data 0 ≠ 0x81 := by rcases htag with h | h <;> rw [h] <;> decide
  cases hm : d.mode <;>
  by_cases hst : (rd data 0 = 0x30 ∧ rd data 13 ≠ 0) <;>
  simp [procon_raw_event, hin, hs, htag, h81, hm, hst, PROCON_REPORT_TYPE,
    PROCON_REPORT_INPUT_FULL, PROCON_REPORT_INPUT_SIMPLE, PROCON_REPORT_REPLY_USB]

/-- The full layout reads only the bytes at offsets 3..11 and 13..16. -/
theorem full_layout_offsets (a g : Nat) (data data2 : List Nat)
    (h : ∀ i, (3 ≤ i ∧ i ≤ 11) ∨ (13 ≤ i ∧ i ≤ 16) → rd data2 i = rd data i) :
    full_layout a g data2 = full_layout a g data := by
  simp only [full_layout, full_axes, rd_u16]
  rw [h 3 (by omega), h 4 (by omega), h 5 (by omega), h 6 (by omega), h 7 (by omega),
    h 8 (by omega), h 9 (by omega), h 10 (by omega), h 11 (by omega), h 13 (by omega),
    h 14 (by omega), h 15 (by omega), h 16 (by omega)]

/-- The simple layout reads only the bytes at offsets 1..11. -/
theorem simple_layout_offsets (a : Nat) (data data2 : List Nat)
    (h : ∀ i, 1 ≤ i ∧ i ≤ 11 → rd data2 i = rd data i) :
    simple_layout a data2 = simple_layout a data := by
  simp only [simple_layout, simple_axes, rd_s16, rd_u16]
  rw [h 1 (by omega), h 2 (by omega), h 3 (by omega), h 4 (by omega), h 5 (by omega),
    h 6 (by omega), h 7 (by omega), h 8 (by omega), h 9 (by omega), h 10 (by omega),
    h 11 (by omega)]

/-- Away from the sum `-0x8000` the fusion of lines 629-634 is the sum clamped
to `[-0x7FFF, 0x7FFF]`. -/
theorem gyro_fuse_clamp (s g : Int) (hs : -0x7FFF ≤ s ∧ s ≤ 0x7FFF)
    (hg : -0x8000 ≤ g ∧ g ≤ 0x7FFF) (hne : s + g ≠ -0x8000) :
    gyro_fuse s g = max (-0x7FFF) (min 0x7FFF (s + g)) := by
  unfold gyro_fuse s16c
  split_ifs <;> omega

/-! ## The registration block keeps the modes -/

theorem assign_loop_modes (self : Nat) (fuel : Nat) : ∀ (order : Nat) (d : procon_data)
    (c : List (Option Nat)),
    (assign_loop self fuel order d c).2.1.mode_new = d.mode_new
    ∧ (assign_loop self fuel order d c).2.1.mode = d.mode := by
  induction fuel with
  | zero => intro order d c; exact ⟨rfl, rfl⟩
  | succ n ih =>
    intro order d c
    unfold assign_loop
    by_cases h1 : order < 8
    · by_cases h2 : c.getD order none = none
      · rw [if_pos h1, if_pos h2]; exact ⟨rfl, rfl⟩
      · rw [if_pos h1, if_neg h2]; exact ih (order + 1) d c
    · rw [if_neg h1]; exact ⟨rfl, rfl⟩

theorem register_connection_modes (hdev : hid_device) (self : Nat) (d : procon_data)
    (c : List (Option Nat)) :
    (register_connection hdev self d c).drvdata.mode_new = d.mode_new
    ∧ (register_connection hdev self d c).drvdata.mode = d.mode := by
  unfold register_connection
  by_cases hc : d.connected = true
  · simp [hc]
  · have hl := assign_loop_modes self 8 0 { d with connected := true } c
    simp only [Bool.not_eq_true] at hc
    simp only [hc, Bool.not_false, if_true]
    split_ifs
    · exact hl
    · exact hl

theorem homelight_off_frame (hdev : hid_device) (h : hdev.bus_usb = false) :
    procon_send_data hdev (data_homelight.set 12 0x21) 34
      = some ([0x01, 0x00, 0x00, 0x90, 0x20, 0x64, 0x00, 0x90, 0x20, 0x64, 0x38, 0x0F, 0x21, 0x20]
          ++ List.replicate 35 0) := by
  simp [procon_send_data, procon_send_report, memcpy_at, u8_array, rd, h, data_homelight,
    List.range, List.range.loop, u8c, PROCON_REPORT_SEND_USB, PROCON_USB_DO_CMD,
    PROCON_CMD_AND_RUMBLE, PROCON_CMD_LED_HOME, List.replicate]

/-! ## Rumble encoding -/

/-- C4: for magnitudes in 0..65535 the rumble body carries
`high_amp = (weak / 649) * 2` at offsets 3 and 7 and
`low_amp1 = (strong / 649) / 2 + 64` at offsets 5 and 9, without 8-bit
truncation; `high_amp` is at most 200 and is 200 at `weak = 65535`,
`low_amp1` is at most 114, zero magnitudes give 0x00 and 0x40, and bytes 2..5
equal bytes 6..9. On the raw transport the body is the head of the frame
sent. -/
theorem rumble_amplitudes_exact (hdev : hid_device) (d : procon_data)
    (hw : d.rumble_weak ≤ 65535) (hs : d.rumble_strong ≤ 65535) :
    rd (rumble_body d) 3 = (d.rumble_weak / 649) * 2
    ∧ rd (rumble_body d) 7 = (d.rumble_weak / 649) * 2
    ∧ rd (rumble_body d) 5 = (d.rumble_strong / 649) / 2 + 64
    ∧ rd (rumble_body d) 9 = (d.rumble_strong / 649) / 2 + 64
    ∧ (d.rumble_weak / 649) * 2 ≤ 200
    ∧ (d.rumble_weak = 65535 → rd (rumble_body d) 3 = 200)
    ∧ (d.rumble_strong / 649) / 2 + 64 ≤ 114
    ∧ (d.rumble_weak = 0 → d.rumble_strong = 0 →
        rd (rumble_body d) 3 = 0x00 ∧ rd (rumble_body d) 5 = 0x40)
    ∧ ((rumble_body d).drop 2).take 4 = ((rumble_body d).drop 6).take 4
    ∧ (hdev.bus_usb = false →
        ∃ frame, procon_work_rumble hdev d = some frame ∧ frame.take 12 = rumble_body d) := by
  have e := rumble_body_eq d
  have h1 : d.rumble_weak / 649 ≤ 100 := by omega
  have h2 : d.rumble_strong / 649 ≤ 100 := by omega
  have a1 : u8c (d.rumble_weak / 649 * 2) = d.rumble_weak / 649 * 2 := by
    unfold u8c; omega
  have a2 : u8c (u8c (d.rumble_strong / 649) / 2 + 64) = d.rumble_strong / 649 / 2 + 64 := by
    unfold u8c; omega
  refine ⟨?_, ?_, ?_, ?_, ?_, ?_, ?_, ?_, ?_, ?_⟩
  · rw [e]; simpa [rd, u8c_idem] using a1
  · rw [e]; simpa [rd, u8c_idem] using a1
  · rw [e]; simpa [rd, u8c_idem] using a2
  · rw [e]; simpa [rd, u8c_idem] using a2
  · omega
  · intro h; rw [e, h]; simp [rd, u8c]
  · omega
  · intro hw0 hs0; rw [e, hw0, hs0]; simp [rd, u8c]
  · rw [e]; simp
  · intro hb
    refine ⟨(List.range 49).map (fun i => rd (rumble_body d) i), ?_, ?_⟩
    · simp [procon_work_rumble, procon_send_data, procon_send_report, memcpy_at, u8_array, rd,
        hb, List.range, List.range.loop, u8c, PROCON_REPORT_SEND_USB, PROCON_USB_DO_CMD, e]
    · simp only [e]
      simp [rd, List.range, List.range.loop, u8c]

/-- Witness for C4 at `weak = 65535`, `strong = 40000` on the wireless device. -/
theorem rumble_amplitudes_exact_witness :
    (65535 ≤ 65535 ∧ 40000 ≤ 65535)
    ∧ rd (rumble_body { procon_probe with rumble_weak := 65535, rumble_strong := 40000 }) 3 = 200
    ∧ rd (rumble_body { procon_probe with rumble_weak := 65535, rumble_strong := 40000 }) 5 = 94 :=
  have h := rumble_amplitudes_exact wireless
    { procon_probe with rumble_weak := 65535, rumble_strong := 40000 }
    (by decide) (by decide)
  ⟨⟨by decide, by decide⟩, h.1, h.2.2.1⟩

/-- C5 (failing input `weak = strong = 0`): the body built by
`procon_work_rumble` has 0x00 at offsets 4 and 8, not the low-band selector
0x28: the statement `data[4] = data[9] = l_freq` stores the selector at
offsets 4 and 9, and `data[4] = data[8] += l_amp2` then overwrites offset 4 with
the carry alone. The high-band selector 0x20 is at offsets 2 and 6. -/
theorem rumble_low_band_selector_lost :
    rumble_body { procon_probe with rumble_weak := 0, rumble_strong := 0 }
      = [0x10, 0x00, 0x20, 0x00, 0x00, 0x40, 0x20, 0x00, 0x00, 0x40, 0x00, 0x00]
    ∧ rd (rumble_body { procon_probe with rumble_weak := 0, rumble_strong := 0 }) 4 ≠ 0x28
    ∧ rd (rumble_body { procon_probe with rumble_weak := 0, rumble_strong := 0 }) 8 ≠ 0x28 := by
  decide

/-! ## Command framing -/

/-- C6: on the wrapped (USB) transport `procon_send_cmd` emits a 64-byte frame:
the header 80 92 00 31 00 00 00 00, the body 01 00 00 10 40 40 00 10 40 40 cmd
arg, and zeros; on the raw transport it emits the 49 bytes at offsets 8..56 of
that frame. `cmd` and `arg` are at offsets 18 and 19 of the wrapped frame and
10 and 11 of the raw frame, and another pair of bytes gives other frames. -/
theorem procon_send_cmd_frames (usb bt : hid_device) (cmd arg : Nat)
    (husb : usb.bus_usb = true) (hrep : usb.report_id_hash 0x80 = some 0x40)
    (hbt : bt.bus_usb = false) (hcmd : cmd < 256) (harg : arg < 256) :
    ∃ w r : List Nat,
      procon_send_cmd usb cmd arg = some w ∧ procon_send_cmd bt cmd arg = some r
      ∧ w = [0x80, 0x92, 0x00, 0x31, 0x00, 0x00, 0x00, 0x00]
            ++ [0x01, 0x00, 0x00, 0x10, 0x40, 0x40, 0x00, 0x10, 0x40, 0x40, cmd, arg]
            ++ List.replicate 44 0
      ∧ w.length = 64 ∧ r.length = 49 ∧ r = (w.drop 8).take 49
      ∧ w.getD 18 0 = cmd ∧ w.getD 19 0 = arg ∧ r.getD 10 0 = cmd ∧ r.getD 11 0 = arg
      ∧ ∀ cmd2 arg2 : Nat, cmd2 < 256 → arg2 < 256 → (cmd2, arg2) ≠ (cmd, arg) →
          procon_send_cmd usb cmd2 arg2 ≠ some w ∧ procon_send_cmd bt cmd2 arg2 ≠ some r := by
  refine ⟨_, _, send_cmd_usb_eq usb cmd arg husb hrep, send_cmd_bt_eq bt cmd arg hbt, ?_⟩
  rw [u8c_of_lt hcmd, u8c_of_lt harg]
  refine ⟨rfl, by simp, by simp, by simp [List.replicate], by simp, by simp, by simp, by simp, ?_⟩
  intro cmd2 arg2 h1 h2 hne
  rw [send_cmd_usb_eq usb cmd2 arg2 husb hrep, send_cmd_bt_eq bt cmd2 arg2 hbt,
    u8c_of_lt h1, u8c_of_lt h2]
  have hne2 : ¬ (cmd2 = cmd ∧ arg2 = arg) := fun h => hne (by rw [h.1, h.2])
  constructor
  · intro h
    simp at h
    exact hne2 h
  · intro h
    simp at h
    exact hne2 h

/-- Witness for C6: SetMode(Simple) on the two sample devices. -/
theorem procon_send_cmd_frames_witness :
    (wired.bus_usb = true ∧ wired.report_id_hash 0x80 = some 0x40 ∧ wireless.bus_usb = false
      ∧ 0x03 < 256 ∧ 0x3F < 256)
    ∧ ∃ w r : List Nat,
      procon_send_cmd wired 0x03 0x3F = some w ∧ procon_send_cmd wireless 0x03 0x3F = some r
      ∧ w = [0x80, 0x92, 0x00, 0x31, 0x00, 0x00, 0x00, 0x00]
            ++ [0x01, 0x00, 0x00, 0x10, 0x40, 0x40, 0x00, 0x10, 0x40, 0x40, 0x03, 0x3F]
            ++ List.replicate 44 0
      ∧ w.length = 64 ∧ r.length = 49 ∧ r = (w.drop 8).take 49
      ∧ w.getD 18 0 = 0x03 ∧ w.getD 19 0 = 0x3F ∧ r.getD 10 0 = 0x03 ∧ r.getD 11 0 = 0x3F
      ∧ ∀ cmd2 arg2 : Nat, cmd2 < 256 → arg2 < 256 → (cmd2, arg2) ≠ (0x03, 0x3F) →
          procon_send_cmd wired cmd2 arg2 ≠ some w
          ∧ procon_send_cmd wireless cmd2 arg2 ≠ some r :=
  ⟨⟨rfl, rfl, rfl, by decide, by decide⟩,
    procon_send_cmd_frames wired wireless 0x03 0x3F rfl rfl rfl (by decide) (by decide)⟩

/-! ## Axis values -/

/-- C1 (failing inputs): a 12-byte simple report with hat code 8 whose
left-stick X word is 0xFFFF, decoded in mode Simple with `analog_dpad` off, is
reported with `ABS_X = -0x8000`; a 17-byte full report whose gyro word at
offset 13 is 0x8000, decoded in mode Full, is reported with
`ABS_TILT_Y = -0x8000`. Both are below the minimum `-0x7FFF` that
`procon_input_register` declares for these axes. -/
theorem axis_below_declared_minimum :
    ((procon_raw_event procon_probe 0
        [0x3F, 0x00, 0x00, 0x08, 0xFF, 0xFF, 0x00, 0x80, 0x00, 0x80, 0x00, 0x80] 12).frame.map
          (fun f => f.ABS_X)) = some (-0x8000)
    ∧ ((procon_raw_event
          { procon_probe with mode := PROCON_MODE_FULL, mode_new := PROCON_MODE_FULL } 0
        [0x30, 0x00, 0x00, 0x00, 0x00, 0x00, 0x00, 0x00, 0x00, 0x00, 0x00, 0x00, 0x00,
         0x00, 0x80, 0x00, 0x00] 17).frame.map (fun f => f.ABS_TILT_Y)) = some (-0x8000)
    ∧ ¬ ((-0x7FFF : Int) ≤ -0x8000) := by
  decide

/-- C2 (failing input): a full report with L held, left-stick X field 0 (so the
recentred stick is `-0x7FFF`) and gyro word 0x9249 at offset 15 (so the delta
is `-1`), decoded in mode Full with `gyro_trigger = 1`, is reported with
`ABS_X = -0x8000`, while the sum clamped to `[-0x7FFF, 0x7FFF]` is `-0x7FFF`.
The example of the claim, `-0x7FFF` fused with `-100`, does give `-0x7FFF`. -/
theorem gyro_fusion_misses_clamp :
    ((procon_raw_event
          { procon_probe with mode := PROCON_MODE_FULL, mode_new := PROCON_MODE_FULL,
                              gyro_trigger := 1 } 0
        [0x30, 0x00, 0x00, 0x00, 0x00, 0x40, 0x00, 0x00, 0x00, 0x00, 0x00, 0x00, 0x00,
         0x00, 0x00, 0x49, 0x92] 17).frame.map (fun f => f.ABS_X)) = some (-0x8000)
    ∧ gyro_fuse (-0x7FFF) (-1) = -0x8000
    ∧ max (-0x7FFF) (min 0x7FFF ((-0x7FFF : Int) + (-1))) = -0x7FFF
    ∧ gyro_fuse (-0x7FFF) (-100) = -0x7FFF := by
  decide

/-- C3: for an input report decoded with the full layout (stored mode not
Simple), `analog_dpad` off and no gyro fusion, the horizontal axes are the
exact integers `(raw12 << 4) - 0x7FFF` with
`raw12 = data[6] | (data[7] & 0x0F) << 8` (left) and
`data[9] | (data[10] & 0x0F) << 8` (right), and the vertical axes are the exact
negations of that formula on `(data[7] >> 4) | data[8] << 4` and
`(data[10] >> 4) | data[11] << 4`. -/
theorem full_layout_recentring (drvdata : procon_data) (now : Nat) (data : List Nat)
    (size : Int) (hin : drvdata.input = true) (hsize : 1 ≤ size)
    (htag : rd data 0 = 0x30 ∨ rd data 0 = 0x3F)
    (hmode : drvdata.mode ≠ PROCON_MODE_SIMPLE)
    (hdpad : drvdata.analog_dpad = 0)
    (hfuse : ¬ (drvdata.gyro_trigger = 1 ∧ tst (rd data 5 &&& 0x40) = true)
      ∧ ¬ (drvdata.gyro_trigger = 2 ∧ tst (rd data 3 &&& 0x40) = true)) :
    ∃ f : input_frame, (procon_raw_event drvdata now data size).frame = some f
      ∧ f.ABS_X = (((rd data 6 ||| ((rd data 7 &&& 0x0F) <<< 8)) <<< 4 : Nat) : Int) - 0x7FFF
      ∧ f.ABS_RX = (((rd data 9 ||| ((rd data 10 &&& 0x0F) <<< 8)) <<< 4 : Nat) : Int) - 0x7FFF
      ∧ f.ABS_Y = -(((((rd data 7 >>> 4) ||| (rd data 8 <<< 4)) <<< 4 : Nat) : Int) - 0x7FFF)
      ∧ f.ABS_RY
          = -(((((rd data 10 >>> 4) ||| (rd data 11 <<< 4)) <<< 4 : Nat) : Int) - 0x7FFF) := by
  refine ⟨_, (raw_event_input drvdata now data size hin hsize htag).1, ?_⟩
  rw [if_pos hmode, hdpad]
  simp only [full_layout, full_axes_plain _ _ hfuse]
  rw [(horiz_field data 6).1, (horiz_field data 9).1, (vert_field data 7).1,
    (vert_field data 10).1]
  exact ⟨rfl, rfl, rfl, rfl⟩

/-- Witness for C3: a full report with left stick (0x234, 0x7BA) and right
stick (0xFFF, 0x000), in mode Full. -/
theorem full_layout_recentring_witness :
    ((procon_probe.input = true ∧ (1 : Int) ≤ 17)
      ∧ ({ procon_probe with mode := PROCON_MODE_FULL } : procon_data).mode ≠ PROCON_MODE_SIMPLE)
    ∧ ∃ f : input_frame,
        (procon_raw_event { procon_probe with mode := PROCON_MODE_FULL } 0
          [0x30, 0x00, 0x00, 0x00, 0x00, 0x00, 0x34, 0xA2, 0x7B, 0xFF, 0x0F, 0x00, 0x00,
           0x00, 0x00, 0x00, 0x00] 17).frame = some f
        ∧ f.ABS_X = 0x2340 - 0x7FFF ∧ f.ABS_RX = 0xFFF0 - 0x7FFF
        ∧ f.ABS_Y = -(0x7BA0 - 0x7FFF) ∧ f.ABS_RY = -(0x0000 - 0x7FFF) :=
  ⟨⟨⟨rfl, by decide⟩, by decide⟩,
    full_layout_recentring { procon_probe with mode := PROCON_MODE_FULL } 0
      [0x30, 0x00, 0x00, 0x00, 0x00, 0x00, 0x34, 0xA2, 0x7B, 0xFF, 0x0F, 0x00, 0x00,
       0x00, 0x00, 0x00, 0x00] 17 rfl (by decide) (by decide) (by decide) rfl (by decide)⟩

/-! ## Acknowledgements -/

/-- C7: for a buffer whose tag byte (at offset `off`: 0, or 10 when the first
byte is the wrapped-reply tag 0x81) is 0x21, the acknowledged id is the byte at
`off + 14`. If the id is 0x03, 0x40, 0x30 or 0x38, `event_cmd` becomes the id,
one ack job is scheduled, nothing else changes, no frame is reported and the
return value is 0; for every other id the state is unchanged, no job is
scheduled, no frame is reported and the return value is 0. -/
theorem ack_reply_dispatch (drvdata : procon_data) (now : Nat) (data : List Nat)
    (size : Int) (off : Nat) (hin : drvdata.input = true) (hsize : 1 ≤ size)
    (hoff : off = if rd data 0 = 0x81 then 10 else 0)
    (htag : rd data off = 0x21) :
    ((rd data (off + 14) = 0x03 ∨ rd data (off + 14) = 0x40
        ∨ rd data (off + 14) = 0x30 ∨ rd data (off + 14) = 0x38) →
      procon_raw_event drvdata now data size
        = ⟨{ drvdata with event_cmd := rd data (off + 14) }, none, 1, 0⟩)
    ∧ (¬ (rd data (off + 14) = 0x03 ∨ rd data (off + 14) = 0x40
        ∨ rd data (off + 14) = 0x30 ∨ rd data (off + 14) = 0x38) →
      procon_raw_event drvdata now data size = ⟨drvdata, none, 0, 0⟩) := by
  have hs : ¬ size < 1 := by omega
  subst hoff
  by_cases hw : rd data 0 = 0x81
  · simp only [if_pos hw] at htag ⊢
    have h30 : rd data 0 ≠ 0x30 := by rw [hw]; decide
    have e0 : rd (List.drop 10 data) 0 = 0x21 := by rw [rd_drop]; exact htag
    have e14 : rd (List.drop 10 data) 14 = rd data (10 + 14) := by rw [rd_drop]
    constructor
    · intro hid
      simp [procon_raw_event, hin, hs, hw, h30, e0, e14, hid, PROCON_REPORT_TYPE,
        PROCON_REPORT_INPUT_FULL, PROCON_REPORT_INPUT_SIMPLE, PROCON_REPORT_REPLY_USB,
        PROCON_REPORT_REPLY, PROCON_REPORT_CMD_ACK, PROCON_CMD_MODE, PROCON_CMD_GYRO,
        PROCON_CMD_LED, PROCON_CMD_LED_HOME]
    · intro hid
      simp [procon_raw_event, hin, hs, hw, h30, e0, e14, hid, PROCON_REPORT_TYPE,
        PROCON_REPORT_INPUT_FULL, PROCON_REPORT_INPUT_SIMPLE, PROCON_REPORT_REPLY_USB,
        PROCON_REPORT_REPLY, PROCON_REPORT_CMD_ACK, PROCON_CMD_MODE, PROCON_CMD_GYRO,
        PROCON_CMD_LED, PROCON_CMD_LED_HOME]
  · simp only [if_neg hw] at htag ⊢
    have h30 : rd data 0 ≠ 0x30 := by rw [htag]; decide
    constructor
    · intro hid
      simp [procon_raw_event, hin, hs, hw, h30, htag, hid, PROCON_REPORT_TYPE,
        PROCON_REPORT_INPUT_FULL, PROCON_REPORT_INPUT_SIMPLE, PROCON_REPORT_REPLY_USB,
        PROCON_REPORT_REPLY, PROCON_REPORT_CMD_ACK, PROCON_CMD_MODE, PROCON_CMD_GYRO,
        PROCON_CMD_LED, PROCON_CMD_LED_HOME]
    · intro hid
      simp [procon_raw_event, hin, hs, hw, h30, htag, hid, PROCON_REPORT_TYPE,
        PROCON_REPORT_INPUT_FULL, PROCON_REPORT_INPUT_SIMPLE, PROCON_REPORT_REPLY_USB,
        PROCON_REPORT_REPLY, PROCON_REPORT_CMD_ACK, PROCON_CMD_MODE, PROCON_CMD_GYRO,
        PROCON_CMD_LED, PROCON_CMD_LED_HOME]

/-- Witness for C7: a wrapped reply (first byte 0x81) acknowledging SetMode. -/
theorem ack_reply_dispatch_witness :
    (procon_probe.input = true ∧ (1 : Int) ≤ 25
      ∧ rd [0x81, 0x00, 0x00, 0x00, 0x00, 0x00, 0x00, 0x00, 0x00, 0x00, 0x21, 0x00, 0x00,
            0x00, 0x00, 0x00, 0x00, 0x00, 0x00, 0x00, 0x00, 0x00, 0x00, 0x00, 0x03] 10 = 0x21)
    ∧ procon_raw_event procon_probe 0
        [0x81, 0x00, 0x00, 0x00, 0x00, 0x00, 0x00, 0x00, 0x00, 0x00, 0x21, 0x00, 0x00,
         0x00, 0x00, 0x00, 0x00, 0x00, 0x00, 0x00, 0x00, 0x00, 0x00, 0x00, 0x03] 25
      = ⟨{ procon_probe with event_cmd := 0x03 }, none, 1, 0⟩ :=
  ⟨⟨rfl, by decide, by decide⟩,
    (ack_reply_dispatch procon_probe 0
      [0x81, 0x00, 0x00, 0x00, 0x00, 0x00, 0x00, 0x00, 0x00, 0x00, 0x21, 0x00, 0x00,
       0x00, 0x00, 0x00, 0x00, 0x00, 0x00, 0x00, 0x00, 0x00, 0x00, 0x00, 0x03] 25 10
      rfl (by decide) (by decide) (by decide)).1 (Or.inl (by decide))⟩

/-! ## Layout selection -/

/-- C8 (as stated, refuted): a report tagged 0x30 that arrives while the
stored mode is Simple is not decoded with the full layout, and a report tagged
0x3F that arrives while the stored mode is Full is not decoded with the simple
layout. -/
theorem layout_not_fixed_by_tag :
    (procon_raw_event procon_probe 0
        [0x30, 0x00, 0x00, 0x08, 0x00, 0x00, 0x00, 0x00, 0x00, 0x00, 0x00, 0x00, 0x00,
         0x00, 0x00, 0x00, 0x00] 17).frame
      ≠ some (full_layout 0 0
        [0x30, 0x00, 0x00, 0x08, 0x00, 0x00, 0x00, 0x00, 0x00, 0x00, 0x00, 0x00, 0x00,
         0x00, 0x00, 0x00, 0x00]).1
    ∧ (procon_raw_event
          { procon_probe with mode := PROCON_MODE_FULL, mode_new := PROCON_MODE_FULL } 0
        [0x3F, 0x02, 0x00, 0x08, 0x00, 0x80, 0x00, 0x80, 0x00, 0x80, 0x00, 0x80] 12).frame
      ≠ some (simple_layout 0
        [0x3F, 0x02, 0x00, 0x08, 0x00, 0x80, 0x00, 0x80, 0x00, 0x80, 0x00, 0x80]).1 := by
  decide

/-- C8 (amended): the layout is fixed by the stored mode, not by the tag. A
report tagged 0x30 or 0x3F is decoded with the full layout (which reads the
bytes at offsets 3..11 and 13..16 only) when the stored mode is Full or Gyro,
and with the simple layout (which reads the bytes at offsets 1..11 only) when
the stored mode is Simple. -/
theorem layout_fixed_by_mode (drvdata : procon_data) (now : Nat) (data : List Nat)
    (size : Int) (hin : drvdata.input = true) (hsize : 1 ≤ size)
    (htag : rd data 0 = 0x30 ∨ rd data 0 = 0x3F) :
    (drvdata.mode ≠ PROCON_MODE_SIMPLE →
      (procon_raw_event drvdata now data size).frame
        = some (full_layout drvdata.analog_dpad drvdata.gyro_trigger data).1)
    ∧ (drvdata.mode = PROCON_MODE_SIMPLE →
      (procon_raw_event drvdata now data size).frame
        = some (simple_layout drvdata.analog_dpad data).1)
    ∧ (∀ data2 : List Nat,
        (∀ i, (3 ≤ i ∧ i ≤ 11) ∨ (13 ≤ i ∧ i ≤ 16) → rd data2 i = rd data i) →
        full_layout drvdata.analog_dpad drvdata.gyro_trigger data2
          = full_layout drvdata.analog_dpad drvdata.gyro_trigger data)
    ∧ (∀ data2 : List Nat, (∀ i, 1 ≤ i ∧ i ≤ 11 → rd data2 i = rd data i) →
        simple_layout drvdata.analog_dpad data2 = simple_layout drvdata.analog_dpad data) := by
  have h := (raw_event_input drvdata now data size hin hsize htag).1
  refine ⟨?_, ?_, ?_, ?_⟩
  · intro hm; rw [h, if_pos hm]
  · intro hm; rw [h, if_neg (not_not.mpr hm)]
  · intro data2 h2; exact full_layout_offsets _ _ data data2 h2
  · intro data2 h2; exact simple_layout_offsets _ data data2 h2

/-- Witness for C8 (amended): a report tagged 0x30 in mode Simple is decoded
with the simple layout. -/
theorem layout_fixed_by_mode_witness :
    (procon_probe.input = true ∧ (1 : Int) ≤ 17 ∧ procon_probe.mode = PROCON_MODE_SIMPLE)
    ∧ (procon_raw_event procon_probe 0
        [0x30, 0x00, 0x00, 0x08, 0x00, 0x00, 0x00, 0x00, 0x00, 0x00, 0x00, 0x00, 0x00,
         0x00, 0x00, 0x00, 0x00] 17).frame
      = some (simple_layout procon_probe.analog_dpad
        [0x30, 0x00, 0x00, 0x08, 0x00, 0x00, 0x00, 0x00, 0x00, 0x00, 0x00, 0x00, 0x00,
         0x00, 0x00, 0x00, 0x00]).1 :=
  ⟨⟨rfl, by decide, rfl⟩,
    (layout_fixed_by_mode procon_probe 0
      [0x30, 0x00, 0x00, 0x08, 0x00, 0x00, 0x00, 0x00, 0x00, 0x00, 0x00, 0x00, 0x00,
       0x00, 0x00, 0x00, 0x00] 17 rfl (by decide) (by decide)).2.1 rfl⟩

/-! ## Short buffers -/

/-- C9 (failing input): a buffer of `size = 1` whose only byte is the tag 0x3F,
received in mode Simple, is not rejected: whatever lies behind it in memory is
decoded with the simple layout and reported, and the return value is 0. A
buffer of `size = 1` whose only byte is 0x21, with a stale 0x03 fourteen bytes
behind it, changes `event_cmd` and schedules the ack job. -/
theorem short_report_not_rejected (now : Nat) (tail : List Nat) :
    (procon_raw_event procon_probe now (0x3F :: tail) 1).frame
        = some (simple_layout 0 (0x3F :: tail)).1
    ∧ (procon_raw_event procon_probe now (0x3F :: tail) 1).retval = 0
    ∧ procon_raw_event procon_probe 0
        [0x21, 0x00, 0x00, 0x00, 0x00, 0x00, 0x00, 0x00, 0x00, 0x00, 0x00, 0x00, 0x00,
         0x00, 0x03] 1
      = ⟨{ procon_probe with event_cmd := 0x03 }, none, 1, 0⟩ := by
  have h := raw_event_input procon_probe now (0x3F :: tail) 1 rfl (by decide)
    (Or.inr (by simp [rd, u8c]))
  refine ⟨?_, h.2, by decide⟩
  rw [h.1]
  rfl

/-! ## The ack job on AckReply(SetMode) -/

/-- C10 (as stated, refuted): after the ack job handles AckReply(SetMode) with
old mode Simple and `mode_new` Gyro, the connection does not have
`mode_new = Full` and `mode = Full`: the stored `mode_new` is still Gyro. -/
theorem set_mode_ack_keeps_mode_new :
    ¬ ((procon_work_event wireless 0
          { procon_probe with connected := true, mode := PROCON_MODE_SIMPLE,
                              mode_new := PROCON_MODE_GYRO, event_cmd := 0x03 }
          (List.replicate 8 none)).drvdata.mode_new = PROCON_MODE_FULL
        ∧ (procon_work_event wireless 0
          { procon_probe with connected := true, mode := PROCON_MODE_SIMPLE,
                              mode_new := PROCON_MODE_GYRO, event_cmd := 0x03 }
          (List.replicate 8 none)).drvdata.mode = PROCON_MODE_FULL) := by
  decide

/-- C10 (amended): when the ack job handles AckReply(SetMode), after the
registration block: if the old mode is Simple and `mode_new` is Gyro it sends
EnableGyro(true) and commits `mode = Full`; if the old mode is Gyro and
`mode_new` is Simple it sends the HomeLight body with byte 12 = 0x21 and
commits `mode = Simple`; in every other case it sends neither and commits
`mode := mode_new`. In all cases the stored `mode_new` is left as it was. -/
theorem set_mode_ack (hdev : hid_device) (self : Nat) (drvdata : procon_data)
    (connections : List (Option Nat)) (hev : drvdata.event_cmd = 0x03) :
    (procon_work_event hdev self drvdata connections).drvdata.mode_new = drvdata.mode_new
    ∧ (procon_work_event hdev self drvdata connections).connections
        = (register_connection hdev self drvdata connections).connections
    ∧ (drvdata.mode = PROCON_MODE_SIMPLE ∧ drvdata.mode_new = PROCON_MODE_GYRO →
        (procon_work_event hdev self drvdata connections).sent
          = (register_connection hdev self drvdata connections).sent
            ++ (procon_send_cmd hdev 0x40 1).toList
        ∧ (procon_work_event hdev self drvdata connections).drvdata.mode = PROCON_MODE_FULL)
    ∧ (drvdata.mode = PROCON_MODE_GYRO ∧ drvdata.mode_new = PROCON_MODE_SIMPLE →
        (procon_work_event hdev self drvdata connections).sent
          = (register_connection hdev self drvdata connections).sent
            ++ (procon_send_data hdev (data_homelight.set 12 0x21) 34).toList
        ∧ (procon_work_event hdev self drvdata connections).drvdata.mode = PROCON_MODE_SIMPLE)
    ∧ (¬ (drvdata.mode = PROCON_MODE_SIMPLE ∧ drvdata.mode_new = PROCON_MODE_GYRO) →
       ¬ (drvdata.mode = PROCON_MODE_GYRO ∧ drvdata.mode_new = PROCON_MODE_SIMPLE) →
        (procon_work_event hdev self drvdata connections).sent
          = (register_connection hdev self drvdata connections).sent
        ∧ (procon_work_event hdev self drvdata connections).drvdata.mode
            = drvdata.mode_new) := by
  have hreg := register_connection_modes hdev self drvdata connections
  have hev2 : u8c drvdata.event_cmd = PROCON_CMD_MODE := by rw [hev]; rfl
  unfold procon_work_event
  simp only [hev2, if_true]
  refine ⟨?_, ?_, ?_, ?_, ?_⟩
  · split_ifs <;> exact hreg.1
  · split_ifs <;> rfl
  · intro h
    rw [if_pos h]
    exact ⟨rfl, rfl⟩
  · intro h
    have h1 : ¬ (drvdata.mode = PROCON_MODE_SIMPLE ∧ drvdata.mode_new = PROCON_MODE_GYRO) := by
      rw [h.1]; intro h2; exact absurd h2.1 (by decide)
    rw [if_neg h1, if_pos h]
    exact ⟨rfl, h.2⟩
  · intro h1 h2
    rw [if_neg h1, if_neg h2]
    exact ⟨rfl, rfl⟩

/-- Witness for C10 (amended): a registered wireless connection with old mode
Simple and `mode_new` Gyro. -/
theorem set_mode_ack_witness :
    ({ procon_probe with connected := true, mode_new := PROCON_MODE_GYRO,
                         event_cmd := 0x03 } : procon_data).event_cmd = 0x03
    ∧ (procon_work_event wireless 0
          { procon_probe with connected := true, mode_new := PROCON_MODE_GYRO,
                              event_cmd := 0x03 }
          (List.replicate 8 none)).drvdata.mode_new = PROCON_MODE_GYRO
    ∧ (procon_work_event wireless 0
          { procon_probe with connected := true, mode_new := PROCON_MODE_GYRO,
                              event_cmd := 0x03 }
          (List.replicate 8 none)).drvdata.mode = PROCON_MODE_FULL :=
  have h := set_mode_ack wireless 0
    { procon_probe with connected := true, mode_new := PROCON_MODE_GYRO, event_cmd := 0x03 }
    (List.replicate 8 none) rfl
  ⟨rfl, h.1, (h.2.2.1 ⟨rfl, rfl⟩).2⟩

/-! ## The home-button gesture -/

theorem u64c_elapsed (now t : Nat) (h1 : t ≤ now) (h2 : now < 2 ^ 64) :
    u64c ((now : Int) - (t : Int)) = now - t := by
  unfold u64c
  have h3 : ((now : Int) - (t : Int)) = ((now - t : Nat) : Int) := by omega
  rw [h3]
  have h4 : (((now - t : Nat) : Int) % 18446744073709551616) = ((now - t : Nat) : Int) := by
    apply Int.emod_eq_of_lt <;> omega
  rw [h4]
  simp

theorem home_gesture_idle (d : procon_data) (a t now : Nat) (b : gesture_buttons)
    (hb : b.home_button = true) (ht : t ≠ 0)
    (h : ¬ (t > 1 ∧ u64c ((now : Int) - (t : Int)) > 2000000000)
      ∨ (b.left_button = true ∧ b.right_button = true)) :
    home_gesture d a t now b = (d, 0) := by
  rcases h with h | h
  · simp [home_gesture, hb, ht, h]
  · by_cases h2 : (t > 1 ∧ u64c ((now : Int) - (t : Int)) > 2000000000)
    · simp [home_gesture, hb, ht, h2, h.1, h.2]
    · simp [home_gesture, hb, ht, h2]

theorem home_gesture_toggle_gyro (d : procon_data) (a t now : Nat) (b : gesture_buttons)
    (hb : b.home_button = true)
    (ht : t > 1 ∧ u64c ((now : Int) - (t : Int)) > 2000000000)
    (hl : b.left_button = false) (hr : b.right_button = false) :
    home_gesture d a t now b
      = ({ d with
            event_cmd := PROCON_EVENT_TOGGLE_GYRO,
            gyro_trigger := if b.triggerl_button then 1 else if b.triggerr_button then 2 else 0,
            time := 1 }, 1) := by
  have ht0 : t ≠ 0 := by omega
  simp [home_gesture, hb, ht, hl, hr, ht0]

theorem home_gesture_toggle_left (d : procon_data) (a t now : Nat) (b : gesture_buttons)
    (hb : b.home_button = true)
    (ht : t > 1 ∧ u64c ((now : Int) - (t : Int)) > 2000000000)
    (hl : b.left_button = true) (hr : b.right_button = false) :
    home_gesture d a t now b
      = ({ d with
            event_cmd := PROCON_CMD_LED,
            analog_dpad := if a = 1 then 0 else 1,
            time := 1 }, 1) := by
  have ht0 : t ≠ 0 := by omega
  simp [home_gesture, hb, ht, hl, hr, ht0]

theorem home_gesture_toggle_right (d : procon_data) (a t now : Nat) (b : gesture_buttons)
    (hb : b.home_button = true)
    (ht : t > 1 ∧ u64c ((now : Int) - (t : Int)) > 2000000000)
    (hl : b.left_button = false) (hr : b.right_button = true) :
    home_gesture d a t now b
      = ({ d with
            event_cmd := PROCON_CMD_LED,
            analog_dpad := if a = 2 then 0 else 2,
            time := 1 }, 1) := by
  have ht0 : t ≠ 0 := by omega
  simp [home_gesture, hb, ht, hl, hr, ht0]

/-- The whole result of `procon_raw_event` on an input report. -/
theorem raw_event_input_result (d : procon_data) (now : Nat) (data : List Nat) (size : Int)
    (hin : d.input = true) (hsize : 1 ≤ size)
    (htag : rd data 0 = 0x30 ∨ rd data 0 = 0x3F) :
    procon_raw_event d now data size
      = ⟨(home_gesture (stale_gyro d data) d.analog_dpad d.time now (report_buttons d data)).1,
         some (if d.mode ≠ PROCON_MODE_SIMPLE
          then (full_layout d.analog_dpad d.gyro_trigger data).1
          else (simple_layout d.analog_dpad data).1),
         (home_gesture (stale_gyro d data) d.analog_dpad d.time now (report_buttons d data)).2,
         0⟩ := by
  have hs : ¬ size < 1 := by omega
  have h81 : rd data 0 ≠ 0x81 := by rcases htag with h | h <;> rw [h] <;> decide
  have h21 : rd data 0 ≠ 0x21 := by rcases htag with h | h <;> rw [h] <;> decide
  cases hm : d.mode <;>
  by_cases hst : (rd data 0 = 0x30 ∧ rd data 13 ≠ 0) <;>
  simp [procon_raw_event, report_buttons, stale_gyro, hin, hs, htag, h81, h21, hm, hst,
    PROCON_REPORT_TYPE, PROCON_REPORT_INPUT_FULL, PROCON_REPORT_INPUT_SIMPLE,
    PROCON_REPORT_REPLY_USB, PROCON_REPORT_REPLY]

theorem stale_gyro_fields (d : procon_data) (data : List Nat) :
    (stale_gyro d data).input = d.input ∧ (stale_gyro d data).mode_new = d.mode_new
    ∧ (stale_gyro d data).analog_dpad = d.analog_dpad
    ∧ (stale_gyro d data).gyro_trigger = d.gyro_trigger
    ∧ (stale_gyro d data).event_cmd = d.event_cmd ∧ (stale_gyro d data).time = d.time
    ∧ ((stale_gyro d data).mode ≠ PROCON_MODE_SIMPLE ↔ d.mode ≠ PROCON_MODE_SIMPLE) := by
  unfold stale_gyro
  split_ifs with h
  · refine ⟨rfl, rfl, rfl, rfl, rfl, rfl, ?_⟩
    simp [h.2.2]
  · exact ⟨rfl, rfl, rfl, rfl, rfl, rfl, Iff.rfl⟩

theorem home_gesture_fields (d : procon_data) (a t now : Nat) (b : gesture_buttons) :
    (home_gesture d a t now b).1.input = d.input
    ∧ (home_gesture d a t now b).1.mode = d.mode
    ∧ (home_gesture d a t now b).1.mode_new = d.mode_new := by
  unfold home_gesture
  simp only []
  split_ifs <;> exact ⟨rfl, rfl, rfl⟩

theorem raw_event_mode (d : procon_data) (now : Nat) (data : List Nat) (size : Int) :
    (procon_raw_event d now data size).drvdata.mode = (stale_gyro d data).mode := by
  unfold procon_raw_event stale_gyro
  simp only [PROCON_REPORT_TYPE, PROCON_REPORT_INPUT_FULL, decide_eq_true_eq]
  split_ifs <;> first | rfl | (rw [(home_gesture_fields _ _ _ _ _).2.1])

theorem work_event_mode (hdev : hid_device) (self : Nat) (d : procon_data)
    (c : List (Option Nat))
    (h : ¬ (u8c d.event_cmd = PROCON_CMD_MODE ∨ u8c d.event_cmd = PROCON_CMD_GYRO)) :
    (procon_work_event hdev self d c).drvdata.mode = d.mode := by
  have h1 : u8c d.event_cmd ≠ PROCON_CMD_MODE := fun e => h (Or.inl e)
  have h2 : u8c d.event_cmd ≠ PROCON_CMD_GYRO := fun e => h (Or.inr e)
  unfold procon_work_event
  simp only [h1, h2, if_false]
  split_ifs <;> rfl

/-! ## The registry -/

theorem assign_loop_first_free (self : Nat) (k : Nat) (fuel : Nat) :
    ∀ (order : Nat) (d : procon_data) (c : List (Option Nat)),
    order ≤ k → k < order + fuel → k < 8 → c.getD k none = none →
    (∀ j, order ≤ j → j < k → c.getD j none ≠ none) →
    assign_loop self fuel order d c = (k, { d with order := k }, c.set k (some self)) := by
  induction fuel with
  | zero => intro order d c h1 h2; omega
  | succ n ih =>
    intro order d c h1 h2 h8 hfree hocc
    unfold assign_loop
    have ho : order < 8 := by omega
    rw [if_pos ho]
    by_cases hk : order = k
    · subst hk
      rw [if_pos hfree]
    · have hne := hocc order (Nat.le_refl _) (by omega)
      rw [if_neg hne]
      exact ih (order + 1) d c (by omega) (by omega) h8 hfree
        (fun j hj1 hj2 => hocc j (by omega) hj2)

theorem assign_loop_full (self : Nat) (fuel : Nat) :
    ∀ (order : Nat) (d : procon_data) (c : List (Option Nat)),
    order + fuel = 8 → (∀ j, order ≤ j → j < 8 → c.getD j none ≠ none) →
    assign_loop self fuel order d c = (8, d, c) := by
  induction fuel with
  | zero => intro order d c h1 _; unfold assign_loop; rw [show order = 8 by omega]
  | succ n ih =>
    intro order d c h1 hocc
    unfold assign_loop
    have ho : order < 8 := by omega
    rw [if_pos ho, if_neg (hocc order (Nat.le_refl _) ho)]
    exact ih (order + 1) d c (by omega) (fun j hj1 hj2 => hocc j (by omega) hj2)

theorem register_connection_first_free (hdev : hid_device) (self : Nat) (d : procon_data)
    (c : List (Option Nat)) (k : Nat) (hconn : d.connected = false)
    (hk : k < 8) (hfree : c.getD k none = none)
    (hocc : ∀ j, j < k → c.getD j none ≠ none) :
    register_connection hdev self d c
      = ⟨{ d with connected := true, order := k }, c.set k (some self),
          (procon_send_cmd hdev PROCON_CMD_LED (u8c (ledmap_at k))).toList⟩ := by
  unfold register_connection
  have h := assign_loop_first_free self k 8 0 { d with connected := true } c (by omega)
    (by omega) hk hfree (fun j _ hj => hocc j hj)
  have h9 : k ≠ 9 := by omega
  simp [hconn, h, h9]

theorem register_connection_full (hdev : hid_device) (self : Nat) (d : procon_data)
    (c : List (Option Nat)) (hconn : d.connected = false)
    (hocc : ∀ j, j < 8 → c.getD j none ≠ none) :
    register_connection hdev self d c
      = ⟨{ d with connected := true }, c,
          (procon_send_cmd hdev PROCON_CMD_LED (u8c (ledmap_at 8))).toList⟩ := by
  unfold register_connection
  have h := assign_loop_full self 8 0 { d with connected := true } c (by omega)
    (fun j _ hj => hocc j hj)
  simp [hconn, h]

theorem work_event_set_mode_registry (hdev : hid_device) (self : Nat) (d : procon_data)
    (c : List (Option Nat)) (hev : d.event_cmd = 0x03) :
    (procon_work_event hdev self d c).connections = (register_connection hdev self d c).connections
    ∧ (procon_work_event hdev self d c).drvdata.order
        = (register_connection hdev self d c).drvdata.order
    ∧ (procon_work_event hdev self d c).drvdata.connected
        = (register_connection hdev self d c).drvdata.connected := by
  have hev2 : u8c d.event_cmd = PROCON_CMD_MODE := by rw [hev]; rfl
  unfold procon_work_event
  simp only [hev2, if_true]
  split_ifs <;> exact ⟨rfl, rfl, rfl⟩

/-! ## The D-pad override -/

theorem full_axes_dpad (a g : Nat) (data : List Nat) (ha : a ≠ 0) :
    full_axes a g data = full_axes a 0 data := by
  unfold full_axes
  simp only [if_neg ha]

theorem full_layout_dpad (a g : Nat) (data : List Nat) (ha : a ≠ 0) :
    full_layout a g data = full_layout a 0 data := by
  unfold full_layout
  rw [full_axes_dpad a g data ha]

theorem s16c_dpad (p q : Bool) :
    s16c (b2i p * 0x7FFF - b2i q * 0x7FFF) = 0x7FFF * b2i p - 0x7FFF * b2i q
    ∧ (0x7FFF * b2i p - 0x7FFF * b2i q = -0x7FFF ∨ 0x7FFF * b2i p - 0x7FFF * b2i q = 0
        ∨ 0x7FFF * b2i p - 0x7FFF * b2i q = 0x7FFF) := by
  cases p <;> cases q <;> decide

/-- Dpad override in the full layout. -/
theorem full_layout_override (a g : Nat) (data : List Nat) (ha : a ≠ 0) :
    (full_layout a g data).1.BTN_DPAD_UP = false
    ∧ (full_layout a g data).1.BTN_DPAD_DOWN = false
    ∧ (full_layout a g data).1.BTN_DPAD_LEFT = false
    ∧ (full_layout a g data).1.BTN_DPAD_RIGHT = false
    ∧ (a = 1 →
        (full_layout a g data).1.ABS_X
          = 0x7FFF * b2i (full_layout 0 g data).1.BTN_DPAD_RIGHT
            - 0x7FFF * b2i (full_layout 0 g data).1.BTN_DPAD_LEFT
        ∧ (full_layout a g data).1.ABS_Y
          = 0x7FFF * b2i (full_layout 0 g data).1.BTN_DPAD_DOWN
            - 0x7FFF * b2i (full_layout 0 g data).1.BTN_DPAD_UP
        ∧ (¬ (g = 2 ∧ tst (rd data 3 &&& 0x40) = true) →
            (full_layout a g data).1.ABS_RX = (full_layout 0 g data).1.ABS_RX
            ∧ (full_layout a g data).1.ABS_RY = (full_layout 0 g data).1.ABS_RY))
    ∧ (a ≠ 1 →
        (full_layout a g data).1.ABS_RX
          = 0x7FFF * b2i (full_layout 0 g data).1.BTN_DPAD_RIGHT
            - 0x7FFF * b2i (full_layout 0 g data).1.BTN_DPAD_LEFT
        ∧ (full_layout a g data).1.ABS_RY
          = 0x7FFF * b2i (full_layout 0 g data).1.BTN_DPAD_DOWN
            - 0x7FFF * b2i (full_layout 0 g data).1.BTN_DPAD_UP
        ∧ (¬ (g = 1 ∧ tst (rd data 5 &&& 0x40) = true) →
            (full_layout a g data).1.ABS_X = (full_layout 0 g data).1.ABS_X
            ∧ (full_layout a g data).1.ABS_Y = (full_layout 0 g data).1.ABS_Y)) := by
  refine ⟨by simp [full_layout, ha], by simp [full_layout, ha], by simp [full_layout, ha],
    by simp [full_layout, ha], ?_, ?_⟩
  · intro h1
    subst h1
    refine ⟨?_, ?_, ?_⟩
    · simp only [full_layout, full_axes]
      simp only [if_true, if_false, OfNat.ofNat_ne_zero, one_ne_zero]
      exact (s16c_dpad _ _).1
    · simp only [full_layout, full_axes]
      simp only [if_true, if_false, OfNat.ofNat_ne_zero, one_ne_zero]
      exact (s16c_dpad _ _).1
    · intro hf
      simp only [full_layout, full_axes]
      simp only [if_true, if_false, OfNat.ofNat_ne_zero, one_ne_zero, if_neg hf]
      split_ifs <;> exact ⟨rfl, rfl⟩
  · intro h1
    refine ⟨?_, ?_, ?_⟩
    · simp only [full_layout, full_axes, if_neg ha, if_neg h1]
      simp only [if_true]
      exact (s16c_dpad _ _).1
    · simp only [full_layout, full_axes, if_neg ha, if_neg h1]
      simp only [if_true]
      exact (s16c_dpad _ _).1
    · intro hf
      simp only [full_layout, full_axes, if_neg ha, if_neg h1]
      simp only [if_true, if_neg hf]
      split_ifs <;> exact ⟨rfl, rfl⟩

/-- Dpad override in the simple layout. -/
theorem simple_layout_override (a : Nat) (data : List Nat) (ha : a ≠ 0) :
    (simple_layout a data).1.BTN_DPAD_UP = false
    ∧ (simple_layout a data).1.BTN_DPAD_DOWN = false
    ∧ (simple_layout a data).1.BTN_DPAD_LEFT = false
    ∧ (simple_layout a data).1.BTN_DPAD_RIGHT = false
    ∧ (a = 1 →
        (simple_layout a data).1.ABS_X
          = 0x7FFF * b2i (simple_layout 0 data).1.BTN_DPAD_RIGHT
            - 0x7FFF * b2i (simple_layout 0 data).1.BTN_DPAD_LEFT
        ∧ (simple_layout a data).1.ABS_Y
          = 0x7FFF * b2i (simple_layout 0 data).1.BTN_DPAD_DOWN
            - 0x7FFF * b2i (simple_layout 0 data).1.BTN_DPAD_UP
        ∧ (simple_layout a data).1.ABS_RX = (simple_layout 0 data).1.ABS_RX
        ∧ (simple_layout a data).1.ABS_RY = (simple_layout 0 data).1.ABS_RY)
    ∧ (a ≠ 1 →
        (simple_layout a data).1.ABS_RX
          = 0x7FFF * b2i (simple_layout 0 data).1.BTN_DPAD_RIGHT
            - 0x7FFF * b2i (simple_layout 0 data).1.BTN_DPAD_LEFT
        ∧ (simple_layout a data).1.ABS_RY
          = 0x7FFF * b2i (simple_layout 0 data).1.BTN_DPAD_DOWN
            - 0x7FFF * b2i (simple_layout 0 data).1.BTN_DPAD_UP
        ∧ (simple_layout a data).1.ABS_X = (simple_layout 0 data).1.ABS_X
        ∧ (simple_layout a data).1.ABS_Y = (simple_layout 0 data).1.ABS_Y) := by
  refine ⟨by simp [simple_layout, ha], by simp [simple_layout, ha], by simp [simple_layout, ha],
    by simp [simple_layout, ha], ?_, ?_⟩
  · intro h1
    subst h1
    simp only [simple_layout, simple_axes]
    simp only [if_true, if_false, OfNat.ofNat_ne_zero, one_ne_zero]
    exact ⟨(s16c_dpad _ _).1, (s16c_dpad _ _).1, trivial, trivial⟩
  · intro h1
    simp only [simple_layout, simple_axes, if_neg ha, if_neg h1]
    simp only [if_true]
    exact ⟨(s16c_dpad _ _).1, (s16c_dpad _ _).1, trivial, trivial⟩

/-! ## Changes of the stored mode -/

/-- C11 (as stated, refuted): the connect job of a wired controller changes the
stored mode from Simple to Full before any acknowledgement, and the arrival of
a report tagged 0x30 with a non-zero byte at offset 13 changes the stored mode
from Full to Gyro. -/
theorem mode_changes_without_ack :
    (run_step wired 0 conn_step.connect procon_probe (List.replicate 8 none)).1.mode
      = PROCON_MODE_FULL
    ∧ procon_probe.mode = PROCON_MODE_SIMPLE
    ∧ (run_step wired 0
        (conn_step.report 0
          [0x30, 0x00, 0x00, 0x00, 0x00, 0x00, 0x00, 0x00, 0x00, 0x00, 0x00, 0x00, 0x00,
           0x01, 0x00, 0x00, 0x00] 17)
        { procon_probe with mode := PROCON_MODE_FULL, mode_new := PROCON_MODE_FULL }
        (List.replicate 8 none)).1.mode
      = PROCON_MODE_GYRO := by
  decide

/-- C11 (amended): a step of a connection changes the stored mode only if it
is the connect job (which sets it to Full on the wrapped transport and Simple
on the raw one), the arrival of a report tagged 0x30 with a non-zero byte at
offset 13 while the mode is Full (which sets it to Gyro), or a run of the ack
job on AckReply(SetMode) or AckReply(EnableGyro). Every other step (any other
report, a gesture job, the ack job on SetLed or HomeLight, the rumble job, a
rumble request) leaves the mode unchanged. -/
theorem mode_written_by (hdev : hid_device) (self : Nat) (s : conn_step) (drvdata : procon_data)
    (connections : List (Option Nat))
    (h : (run_step hdev self s drvdata connections).1.mode ≠ drvdata.mode) :
    (s = conn_step.connect
      ∧ (run_step hdev self s drvdata connections).1.mode
          = (if hdev.bus_usb then PROCON_MODE_FULL else PROCON_MODE_SIMPLE))
    ∨ (∃ now data size, s = conn_step.report now data size
        ∧ rd data 0 = 0x30 ∧ rd data 13 ≠ 0 ∧ drvdata.mode = PROCON_MODE_FULL
        ∧ (run_step hdev self s drvdata connections).1.mode = PROCON_MODE_GYRO)
    ∨ (s = conn_step.event
        ∧ (u8c drvdata.event_cmd = PROCON_CMD_MODE ∨ u8c drvdata.event_cmd = PROCON_CMD_GYRO)) := by
  cases s with
  | connect =>
    left
    refine ⟨rfl, ?_⟩
    simp only [run_step, procon_work_connect]
    split_ifs <;> rfl
  | report now data size =>
    right; left
    simp only [run_step, raw_event_mode] at h ⊢
    unfold stale_gyro at h ⊢
    by_cases hst : rd data 0 = 0x30 ∧ rd data 13 ≠ 0 ∧ drvdata.mode = PROCON_MODE_FULL
    · rw [if_pos hst]
      exact ⟨now, data, size, rfl, hst.1, hst.2.1, hst.2.2, rfl⟩
    · rw [if_neg hst] at h
      exact absurd rfl h
  | event =>
    right; right
    refine ⟨rfl, ?_⟩
    by_contra hne
    exact h (work_event_mode hdev self drvdata connections hne)
  | rumble => exact absurd rfl h
  | play w st => exact absurd rfl h

/-- Witness for C11 (amended): the connect job of a wired controller. -/
theorem mode_written_by_witness :
    (run_step wired 0 conn_step.connect procon_probe (List.replicate 8 none)).1.mode
        ≠ procon_probe.mode
    ∧ ((conn_step.connect = conn_step.connect
        ∧ (run_step wired 0 conn_step.connect procon_probe (List.replicate 8 none)).1.mode
            = (if wired.bus_usb then PROCON_MODE_FULL else PROCON_MODE_SIMPLE))
      ∨ (∃ now data size, conn_step.connect = conn_step.report now data size
          ∧ rd data 0 = 0x30 ∧ rd data 13 ≠ 0 ∧ procon_probe.mode = PROCON_MODE_FULL
          ∧ (run_step wired 0 conn_step.connect procon_probe (List.replicate 8 none)).1.mode
              = PROCON_MODE_GYRO)
      ∨ (conn_step.connect = conn_step.event
          ∧ (u8c procon_probe.event_cmd = PROCON_CMD_MODE
              ∨ u8c procon_probe.event_cmd = PROCON_CMD_GYRO))) :=
  ⟨by decide,
    mode_written_by wired 0 conn_step.connect procon_probe (List.replicate 8 none) (by decide)⟩

/-! ## The gesture threshold -/

/-- C12 (as stated, refuted): with Home held, stored timestamp 2, no modifier
held and an elapsed time of exactly 2,000,000,000 ns, no job is scheduled and
the timestamp stays 2. -/
theorem no_toggle_at_two_seconds :
    (report_buttons { procon_probe with time := 2 }
        [0x3F, 0x00, 0x10, 0x08, 0x00, 0x80, 0x00, 0x80, 0x00, 0x80, 0x00, 0x80]).home_button = true
    ∧ (report_buttons { procon_probe with time := 2 }
        [0x3F, 0x00, 0x10, 0x08, 0x00, 0x80, 0x00, 0x80, 0x00, 0x80, 0x00, 0x80]).left_button = false
    ∧ (report_buttons { procon_probe with time := 2 }
        [0x3F, 0x00, 0x10, 0x08, 0x00, 0x80, 0x00, 0x80, 0x00, 0x80, 0x00, 0x80]).right_button = false
    ∧ (2000000000 : Nat) ≤ 2000000002 - 2
    ∧ (procon_raw_event { procon_probe with time := 2 } 2000000002
        [0x3F, 0x00, 0x10, 0x08, 0x00, 0x80, 0x00, 0x80, 0x00, 0x80, 0x00, 0x80] 12).jobs = 0
    ∧ (procon_raw_event { procon_probe with time := 2 } 2000000002
        [0x3F, 0x00, 0x10, 0x08, 0x00, 0x80, 0x00, 0x80, 0x00, 0x80, 0x00, 0x80] 12).drvdata.time = 2 := by
  decide

/-- C12 (amended): for an input report with Home held, stored timestamp
`t > 1`, time `now >= t` and neither `left_button` nor `right_button` held, a
ToggleGyro job is dispatched (event 0xFF, `gyro_trigger` from the L/R bits,
timestamp 1) if the elapsed time `now - t` exceeds 2,000,000,000 ns; if it is
at most 2,000,000,000 ns nothing is dispatched and the timestamp is unchanged.
Besides, only lines 571-577 (`stale_gyro`) touch the state. -/
theorem toggle_gyro_threshold (drvdata : procon_data) (now : Nat) (data : List Nat) (size : Int)
    (hin : drvdata.input = true) (hsize : 1 ≤ size)
    (htag : rd data 0 = 0x30 ∨ rd data 0 = 0x3F)
    (hhome : (report_buttons drvdata data).home_button = true)
    (hleft : (report_buttons drvdata data).left_button = false)
    (hright : (report_buttons drvdata data).right_button = false)
    (ht : 1 < drvdata.time) (hnow : drvdata.time ≤ now) (hu64 : now < 2 ^ 64) :
    (2000000000 < now - drvdata.time →
      (procon_raw_event drvdata now data size).jobs = 1
      ∧ (procon_raw_event drvdata now data size).drvdata
          = { stale_gyro drvdata data with
                event_cmd := PROCON_EVENT_TOGGLE_GYRO,
                gyro_trigger :=
                  if (report_buttons drvdata data).triggerl_button then 1
                  else if (report_buttons drvdata data).triggerr_button then 2 else 0,
                time := 1 })
    ∧ (now - drvdata.time ≤ 2000000000 →
      (procon_raw_event drvdata now data size).jobs = 0
      ∧ (procon_raw_event drvdata now data size).drvdata = stale_gyro drvdata data
      ∧ (procon_raw_event drvdata now data size).drvdata.time = drvdata.time) := by
  have e := raw_event_input_result drvdata now data size hin hsize htag
  have hu := u64c_elapsed now drvdata.time hnow hu64
  constructor
  · intro hel
    have hg := home_gesture_toggle_gyro (stale_gyro drvdata data) drvdata.analog_dpad
      drvdata.time now (report_buttons drvdata data) hhome ⟨ht, by rw [hu]; exact hel⟩ hleft hright
    rw [e, hg]
    exact ⟨rfl, rfl⟩
  · intro hel
    have hg := home_gesture_idle (stale_gyro drvdata data) drvdata.analog_dpad
      drvdata.time now (report_buttons drvdata data) hhome (by omega)
      (Or.inl (by rw [hu]; omega))
    rw [e, hg]
    exact ⟨rfl, rfl, (stale_gyro_fields drvdata data).2.2.2.2.2.1⟩

/-- Witness for C12 (amended): Home held for 2,000,000,001 ns. -/
theorem toggle_gyro_threshold_witness :
    ((1 : Nat) < 2 ∧ (2 : Nat) ≤ 2000000003 ∧ (2000000000 : Nat) < 2000000003 - 2)
    ∧ (procon_raw_event { procon_probe with time := 2 } 2000000003
        [0x3F, 0x00, 0x10, 0x08, 0x00, 0x80, 0x00, 0x80, 0x00, 0x80, 0x00, 0x80] 12).jobs = 1
    ∧ (procon_raw_event { procon_probe with time := 2 } 2000000003
        [0x3F, 0x00, 0x10, 0x08, 0x00, 0x80, 0x00, 0x80, 0x00, 0x80, 0x00, 0x80] 12).drvdata.time
      = 1 :=
  have h := (toggle_gyro_threshold { procon_probe with time := 2 } 2000000003
    [0x3F, 0x00, 0x10, 0x08, 0x00, 0x80, 0x00, 0x80, 0x00, 0x80, 0x00, 0x80] 12
    rfl (by decide) (by decide) (by decide) (by decide) (by decide) (by decide) (by decide)
    (by norm_num)).1 (by decide)
  ⟨⟨by decide, by decide, by decide⟩, h.1, by rw [h.2]⟩

/-! ## One gesture per hold -/

/-- C19 (as stated, refuted): past the threshold, Home with the L button
(BTN_TL) held and no stick click dispatches ToggleGyro and leaves `analog_dpad`
as it was; and Home with the left stick click held, in a report tagged 0x30 with
a non-zero byte at offset 13 received in mode Full, toggles `analog_dpad` and
changes the mode to Gyro. -/
theorem dpad_toggle_as_stated_fails :
    -- L shoulder (BTN_TL) with Home past the threshold: ToggleGyro, policy unchanged
    (procon_raw_event
        { procon_probe with mode := PROCON_MODE_FULL, mode_new := PROCON_MODE_FULL, time := 2 }
        3000000000
        [0x30, 0x00, 0x00, 0x00, 0x10, 0x40, 0x00, 0x08, 0x80, 0x00, 0x08, 0x80, 0x00,
         0x00, 0x00, 0x00, 0x00] 17).drvdata
      = { procon_probe with mode := PROCON_MODE_FULL, mode_new := PROCON_MODE_FULL, time := 1,
                            event_cmd := 0xFF, gyro_trigger := 1 }
    -- left stick click with Home past the threshold, byte 13 non-zero, mode Full: mode changes
    ∧ (procon_raw_event
        { procon_probe with mode := PROCON_MODE_FULL, mode_new := PROCON_MODE_FULL, time := 2 }
        3000000000
        [0x30, 0x00, 0x00, 0x00, 0x18, 0x00, 0x00, 0x08, 0x80, 0x00, 0x08, 0x80, 0x00,
         0x01, 0x00, 0x00, 0x00] 17).drvdata
      = { procon_probe with mode := PROCON_MODE_GYRO, mode_new := PROCON_MODE_FULL, time := 1,
                            event_cmd := 0x30, analog_dpad := 1 } := by
  decide

/-- C19 (amended): for an input report past the gesture threshold (Home held,
stored timestamp > 1, elapsed time over 2,000,000,000 ns) in which exactly one
of `left_button` / `right_button` (the stick clicks, reported as ThumbL /
ThumbR) is held, side 1 for the left and 2 for the right: a job with event
`PROCON_CMD_LED` is scheduled, `analog_dpad` becomes 0 if it was that side and
that side otherwise, the timestamp becomes 1, `gyro_trigger` and `mode_new`
are unchanged, and the mode is unchanged except for the change of lines
571-577 (tag 0x30, non-zero byte 13, mode Full: Gyro). -/
theorem toggle_dpad_policy (drvdata : procon_data) (now : Nat) (data : List Nat) (size : Int)
    (side : Nat) (hin : drvdata.input = true) (hsize : 1 ≤ size)
    (htag : rd data 0 = 0x30 ∨ rd data 0 = 0x3F)
    (hhome : (report_buttons drvdata data).home_button = true)
    (ht : 1 < drvdata.time) (hnow : drvdata.time ≤ now) (hu64 : now < 2 ^ 64)
    (hel : 2000000000 < now - drvdata.time)
    (hside : (side = 1 ∧ (report_buttons drvdata data).left_button = true
                ∧ (report_buttons drvdata data).right_button = false)
          ∨ (side = 2 ∧ (report_buttons drvdata data).left_button = false
                ∧ (report_buttons drvdata data).right_button = true)) :
    (procon_raw_event drvdata now data size).jobs = 1
    ∧ (procon_raw_event drvdata now data size).drvdata.event_cmd = PROCON_CMD_LED
    ∧ (procon_raw_event drvdata now data size).drvdata.analog_dpad
        = (if drvdata.analog_dpad = side then 0 else side)
    ∧ (procon_raw_event drvdata now data size).drvdata.time = 1
    ∧ (procon_raw_event drvdata now data size).drvdata.gyro_trigger = drvdata.gyro_trigger
    ∧ (procon_raw_event drvdata now data size).drvdata.mode_new = drvdata.mode_new
    ∧ (procon_raw_event drvdata now data size).drvdata.mode
        = (if rd data 0 = 0x30 ∧ rd data 13 ≠ 0 ∧ drvdata.mode = PROCON_MODE_FULL
            then PROCON_MODE_GYRO else drvdata.mode) := by
  have e := raw_event_input_result drvdata now data size hin hsize htag
  have hu := u64c_elapsed now drvdata.time hnow hu64
  have hth : drvdata.time > 1 ∧ u64c ((now : Int) - (drvdata.time : Int)) > 2000000000 :=
    ⟨ht, by rw [hu]; exact hel⟩
  have hs := stale_gyro_fields drvdata data
  have hmode : (stale_gyro drvdata data).mode
      = (if rd data 0 = 0x30 ∧ rd data 13 ≠ 0 ∧ drvdata.mode = PROCON_MODE_FULL
          then PROCON_MODE_GYRO else drvdata.mode) := by
    unfold stale_gyro; split_ifs <;> rfl
  rcases hside with ⟨h1, hl, hr⟩ | ⟨h1, hl, hr⟩
  · have hg := home_gesture_toggle_left (stale_gyro drvdata data) drvdata.analog_dpad
      drvdata.time now (report_buttons drvdata data) hhome hth hl hr
    rw [e, hg, h1]
    exact ⟨rfl, rfl, rfl, rfl, hs.2.2.2.1, hs.2.1, hmode⟩
  · have hg := home_gesture_toggle_right (stale_gyro drvdata data) drvdata.analog_dpad
      drvdata.time now (report_buttons drvdata data) hhome hth hl hr
    rw [e, hg, h1]
    exact ⟨rfl, rfl, rfl, rfl, hs.2.2.2.1, hs.2.1, hmode⟩

/-- Witness for C19 (amended): Home and the left stick click, simple layout. -/
theorem toggle_dpad_policy_witness :
    ((1 : Nat) < 2 ∧ (2000000000 : Nat) < 3000000000 - 2)
    ∧ (procon_raw_event { procon_probe with time := 2 } 3000000000
        [0x3F, 0x00, 0x14, 0x08, 0x00, 0x80, 0x00, 0x80, 0x00, 0x80, 0x00, 0x80] 12).jobs = 1
    ∧ (procon_raw_event { procon_probe with time := 2 } 3000000000
        [0x3F, 0x00, 0x14, 0x08, 0x00, 0x80, 0x00, 0x80, 0x00, 0x80, 0x00, 0x80]
        12).drvdata.analog_dpad = 1 :=
  have h := toggle_dpad_policy { procon_probe with time := 2 } 3000000000
    [0x3F, 0x00, 0x14, 0x08, 0x00, 0x80, 0x00, 0x80, 0x00, 0x80, 0x00, 0x80] 12 1
    rfl (by decide) (by decide) (by decide) (by decide) (by decide) (by norm_num) (by decide)
    (Or.inl ⟨rfl, by decide, by decide⟩)
  ⟨⟨by decide, by decide⟩, h.1, h.2.2.1⟩

/-! ## Slots -/

/-- C14: when the ack job handles the first AckReply(SetMode) of a connection
that is not yet registered and slot `k` is the lowest free slot of the table,
the connection is stored at `connections[k]`, `k` is recorded as its `order`
and it is marked connected. Eight registrations into the empty table record
the slots 0..7 in order, and after the connection of slot 3 is removed the next
registration records slot 3. -/
theorem register_lowest_free_slot (hdev : hid_device) (self : Nat) (drvdata : procon_data)
    (connections : List (Option Nat)) (k : Nat)
    (hlen : connections.length = 8) (hev : drvdata.event_cmd = 0x03)
    (hconn : drvdata.connected = false)
    (hk : k < 8) (hfree : connections.getD k none = none)
    (hocc : ∀ j, j < k → connections.getD j none ≠ none) :
    (procon_work_event hdev self drvdata connections).connections
        = connections.set k (some self)
    ∧ (procon_work_event hdev self drvdata connections).connections.getD k none = some self
    ∧ (procon_work_event hdev self drvdata connections).drvdata.order = k
    ∧ (procon_work_event hdev self drvdata connections).drvdata.connected = true
    ∧ register_all wireless [10, 11, 12, 13, 14, 15, 16, 17] (List.replicate 8 none)
        = ([0, 1, 2, 3, 4, 5, 6, 7],
           [some 10, some 11, some 12, some 13, some 14, some 15, some 16, some 17])
    ∧ (procon_work_event wireless 18 { procon_probe with event_cmd := 0x03 }
          (procon_remove { procon_probe with connected := true, order := 3 }
            [some 10, some 11, some 12, some 13, some 14, some 15, some 16, some 17])).drvdata.order
        = 3
    ∧ (procon_work_event wireless 18 { procon_probe with event_cmd := 0x03 }
          (procon_remove { procon_probe with connected := true, order := 3 }
            [some 10, some 11, some 12, some 13, some 14, some 15, some 16, some 17])).connections
        = [some 10, some 11, some 12, some 18, some 14, some 15, some 16, some 17] := by
  have h := work_event_set_mode_registry hdev self drvdata connections hev
  have hr := register_connection_first_free hdev self drvdata connections k hconn hk hfree hocc
  rw [h.1, h.2.1, h.2.2, hr]
  refine ⟨rfl, ?_, rfl, rfl, by decide, by decide, by decide⟩
  simp only []
  rw [List.getD_eq_getElem?_getD, List.getElem?_set_self (by omega)]
  rfl

/-- Witness for C14: slots 0 and 2 taken, the lowest free slot is 1. -/
theorem register_lowest_free_slot_witness :
    ([some 10, none, some 12, none, none, none, none, none] : List (Option Nat)).length = 8
    ∧ (procon_work_event wireless 11 { procon_probe with event_cmd := 0x03 }
        [some 10, none, some 12, none, none, none, none, none]).drvdata.order = 1
    ∧ (procon_work_event wireless 11 { procon_probe with event_cmd := 0x03 }
        [some 10, none, some 12, none, none, none, none, none]).connections
      = [some 10, some 11, some 12, none, none, none, none, none] :=
  have h := register_lowest_free_slot wireless 11 { procon_probe with event_cmd := 0x03 }
    [some 10, none, some 12, none, none, none, none, none] 1 rfl rfl rfl (by decide) rfl
    (by decide)
  ⟨rfl, h.2.2.1, h.1⟩

/-- C15 (as stated, refuted): with all 8 slots occupied, a 9th connection is
marked as registered, its recorded order is 0, and its removal releases slot 0,
which another connection holds. -/
theorem ninth_connection_not_rejected :
    (procon_work_event wireless 9 { procon_probe with event_cmd := 0x03 }
        [some 1, some 2, some 3, some 4, some 5, some 6, some 7, some 8]).drvdata.connected = true
    ∧ (procon_work_event wireless 9 { procon_probe with event_cmd := 0x03 }
        [some 1, some 2, some 3, some 4, some 5, some 6, some 7, some 8]).drvdata.order = 0
    ∧ procon_remove
        (procon_work_event wireless 9 { procon_probe with event_cmd := 0x03 }
          [some 1, some 2, some 3, some 4, some 5, some 6, some 7, some 8]).drvdata
        (procon_work_event wireless 9 { procon_probe with event_cmd := 0x03 }
          [some 1, some 2, some 3, some 4, some 5, some 6, some 7, some 8]).connections
      = [none, some 2, some 3, some 4, some 5, some 6, some 7, some 8] := by
  decide

/-- C15 (amended): when all 8 registry slots are occupied, registering a
further connection is not rejected: the connection is marked as registered,
and the registration leaves every entry of `connections[0..7]` as it was. -/
theorem full_registry_registration (hdev : hid_device) (self : Nat) (drvdata : procon_data)
    (connections : List (Option Nat))
    (hev : drvdata.event_cmd = 0x03) (hconn : drvdata.connected = false)
    (hocc : ∀ j, j < 8 → connections.getD j none ≠ none) :
    (procon_work_event hdev self drvdata connections).drvdata.connected = true
    ∧ (procon_work_event hdev self drvdata connections).connections = connections := by
  have h := work_event_set_mode_registry hdev self drvdata connections hev
  have hr := register_connection_full hdev self drvdata connections hconn hocc
  rw [h.1, h.2.2, hr]
  exact ⟨rfl, rfl⟩

/-- Witness for C15 (amended): a 9th connection on a full table. -/
theorem full_registry_registration_witness :
    (∀ j, j < 8 →
      ([some 1, some 2, some 3, some 4, some 5, some 6, some 7, some 8] : List (Option Nat)).getD
        j none ≠ none)
    ∧ (procon_work_event wireless 9 { procon_probe with event_cmd := 0x03 }
        [some 1, some 2, some 3, some 4, some 5, some 6, some 7, some 8]).drvdata.connected = true
    ∧ (procon_work_event wireless 9 { procon_probe with event_cmd := 0x03 }
        [some 1, some 2, some 3, some 4, some 5, some 6, some 7, some 8]).connections
      = [some 1, some 2, some 3, some 4, some 5, some 6, some 7, some 8] :=
  ⟨by decide, full_registry_registration wireless 9 { procon_probe with event_cmd := 0x03 }
    [some 1, some 2, some 3, some 4, some 5, some 6, some 7, some 8] rfl rfl (by decide)⟩

/-- C16 (failing input): connection 1 registers into the empty table and holds
slot 0; a second connection is removed before its SetMode ack, with its order
still 0 from `devm_kzalloc`, which clears `connections[0]`; connection 3 then
registers and records slot 0 as well. Connections 1 and 3 are both live and
registered with slot 0, and `connections[0]` no longer holds connection 1. -/
theorem slot_shared_after_early_disconnect :
    -- A registers into the empty table
    (procon_work_event wireless 1 { procon_probe with event_cmd := 0x03 }
        (List.replicate 8 none)).drvdata.connected = true
    ∧ (procon_work_event wireless 1 { procon_probe with event_cmd := 0x03 }
        (List.replicate 8 none)).drvdata.order = 0
    ∧ (procon_work_event wireless 1 { procon_probe with event_cmd := 0x03 }
        (List.replicate 8 none)).connections
      = [some 1, none, none, none, none, none, none, none]
    -- B is removed before it is registered
    ∧ procon_remove procon_probe [some 1, none, none, none, none, none, none, none]
      = [none, none, none, none, none, none, none, none]
    -- C registers
    ∧ (procon_work_event wireless 3 { procon_probe with event_cmd := 0x03 }
        [none, none, none, none, none, none, none, none]).drvdata.connected = true
    ∧ (procon_work_event wireless 3 { procon_probe with event_cmd := 0x03 }
        [none, none, none, none, none, none, none, none]).drvdata.order = 0
    ∧ (procon_work_event wireless 3 { procon_probe with event_cmd := 0x03 }
        [none, none, none, none, none, none, none, none]).connections
      = [some 3, none, none, none, none, none, none, none] := by
  decide

/-! ## Policies of the decoder -/

/-- C17 (as stated, refuted): with `gyro_trigger` Left, the L bit set and
`analog_dpad` = RightStickAsDpad, the left stick is reported without the gyro
delta (`ABS_X = 1`) and `ABS_TILT_X` is 112, while with `analog_dpad` Off the
same report gives the fused `ABS_X = 113` and `ABS_TILT_X = 0`. -/
theorem fusion_gated_by_analog_dpad :
    ((procon_raw_event
          { procon_probe with mode := PROCON_MODE_FULL, mode_new := PROCON_MODE_FULL,
                              analog_dpad := 2, gyro_trigger := 1 } 0
        [0x30, 0x00, 0x00, 0x00, 0x00, 0x40, 0x00, 0x08, 0x80, 0x00, 0x08, 0x80, 0x00,
         0x00, 0x00, 0x10, 0x00] 17).frame.map (fun f => (f.ABS_X, f.ABS_TILT_X)))
      = some (1, 112)
    ∧ ((procon_raw_event
          { procon_probe with mode := PROCON_MODE_FULL, mode_new := PROCON_MODE_FULL,
                              analog_dpad := 0, gyro_trigger := 1 } 0
        [0x30, 0x00, 0x00, 0x00, 0x00, 0x40, 0x00, 0x08, 0x80, 0x00, 0x08, 0x80, 0x00,
         0x00, 0x00, 0x10, 0x00] 17).frame.map (fun f => (f.ABS_X, f.ABS_TILT_X)))
      = some (113, 0) := by
  decide

/-- C17 (amended): gyro fusion is applied only while `analog_dpad` is Off. For
an input report decoded with the full layout while `analog_dpad` is not Off,
the frame does not depend on `gyro_trigger`: the tilt axes carry the scaled
gyro sample and the stick that is not overridden carries the recentred stick
value, whatever the trigger bits are. -/
theorem no_fusion_under_analog_dpad (drvdata : procon_data) (now : Nat) (data : List Nat)
    (size : Int) (hin : drvdata.input = true) (hsize : 1 ≤ size)
    (htag : rd data 0 = 0x30 ∨ rd data 0 = 0x3F)
    (hmode : drvdata.mode ≠ PROCON_MODE_SIMPLE) (hdpad : drvdata.analog_dpad ≠ 0) :
    ∃ f : input_frame, (procon_raw_event drvdata now data size).frame = some f
      ∧ (procon_raw_event { drvdata with gyro_trigger := 0 } now data size).frame = some f
      ∧ f.ABS_TILT_X = s16c ((rd_u16 data 15 * 7 : Nat))
      ∧ f.ABS_TILT_Y = s16c ((rd_u16 data 13 * 7 : Nat))
      ∧ (drvdata.analog_dpad = 1 →
          f.ABS_RX
            = (((rd data 9 ||| ((rd data 10 &&& 0x0F) <<< 8)) <<< 4 : Nat) : Int) - 0x7FFF
          ∧ f.ABS_RY
            = -(((((rd data 10 >>> 4) ||| (rd data 11 <<< 4)) <<< 4 : Nat) : Int) - 0x7FFF))
      ∧ (drvdata.analog_dpad ≠ 1 →
          f.ABS_X
            = (((rd data 6 ||| ((rd data 7 &&& 0x0F) <<< 8)) <<< 4 : Nat) : Int) - 0x7FFF
          ∧ f.ABS_Y
            = -(((((rd data 7 >>> 4) ||| (rd data 8 <<< 4)) <<< 4 : Nat) : Int) - 0x7FFF)) := by
  have h1 := (raw_event_input drvdata now data size hin hsize htag).1
  have h2 := (raw_event_input { drvdata with gyro_trigger := 0 } now data size hin hsize htag).1
  rw [if_pos hmode] at h1
  simp only [] at h2
  rw [if_pos hmode] at h2
  rw [full_layout_dpad _ _ _ hdpad] at h1
  refine ⟨_, h1, h2, ?_, ?_, ?_, ?_⟩
  · simp only [full_layout, full_axes, if_neg hdpad]
    split_ifs <;> rfl
  · simp only [full_layout, full_axes, if_neg hdpad]
    split_ifs <;> rfl
  · intro ha
    simp only [full_layout, full_axes, ha]
    simp only [if_true, if_false, OfNat.ofNat_ne_zero, one_ne_zero]
    rw [recentre_horiz _ (horiz_field data 9).2, recentre_vert _ (vert_field data 10).2,
      (horiz_field data 9).1, (vert_field data 10).1]
    exact ⟨rfl, rfl⟩
  · intro ha
    simp only [full_layout, full_axes, if_neg hdpad, if_neg ha]
    rw [recentre_horiz _ (horiz_field data 6).2, recentre_vert _ (vert_field data 7).2,
      (horiz_field data 6).1, (vert_field data 7).1]
    exact ⟨rfl, rfl⟩

/-- Witness for C17 (amended): `gyro_trigger` Left with the L bit set, and
`analog_dpad` = RightStickAsDpad. -/
theorem no_fusion_under_analog_dpad_witness :
    (({ procon_probe with mode := PROCON_MODE_FULL, analog_dpad := 2,
                          gyro_trigger := 1 } : procon_data).mode ≠ PROCON_MODE_SIMPLE
      ∧ ({ procon_probe with mode := PROCON_MODE_FULL, analog_dpad := 2,
                             gyro_trigger := 1 } : procon_data).analog_dpad ≠ 0)
    ∧ ∃ f : input_frame,
        (procon_raw_event
          { procon_probe with mode := PROCON_MODE_FULL, analog_dpad := 2, gyro_trigger := 1 } 0
          [0x30, 0x00, 0x00, 0x00, 0x00, 0x40, 0x00, 0x08, 0x80, 0x00, 0x08, 0x80, 0x00,
           0x00, 0x00, 0x10, 0x00] 17).frame = some f
        ∧ (procon_raw_event
          { procon_probe with mode := PROCON_MODE_FULL, analog_dpad := 2, gyro_trigger := 0 } 0
          [0x30, 0x00, 0x00, 0x00, 0x00, 0x40, 0x00, 0x08, 0x80, 0x00, 0x08, 0x80, 0x00,
           0x00, 0x00, 0x10, 0x00] 17).frame = some f :=
  match no_fusion_under_analog_dpad
      { procon_probe with mode := PROCON_MODE_FULL, analog_dpad := 2, gyro_trigger := 1 } 0
      [0x30, 0x00, 0x00, 0x00, 0x00, 0x40, 0x00, 0x08, 0x80, 0x00, 0x08, 0x80, 0x00,
       0x00, 0x00, 0x10, 0x00] 17 rfl (by decide) (by decide) (by decide) (by decide) with
  | ⟨f, h1, h2, _⟩ => ⟨⟨by decide, by decide⟩, f, h1, h2⟩

/-- C18 (as stated, refuted): with `analog_dpad` = LeftStickAsDpad,
`gyro_trigger` Right and the R bit set, the right stick is reported as
`ABS_RX = 1`, while with `analog_dpad` Off the same report gives the fused
`ABS_RX = 113`. -/
theorem other_stick_differs_under_fusion :
    ((procon_raw_event
          { procon_probe with mode := PROCON_MODE_FULL, mode_new := PROCON_MODE_FULL,
                              analog_dpad := 1, gyro_trigger := 2 } 0
        [0x30, 0x00, 0x00, 0x40, 0x00, 0x00, 0x00, 0x08, 0x80, 0x00, 0x08, 0x80, 0x00,
         0x00, 0x00, 0x10, 0x00] 17).frame.map (fun f => f.ABS_RX)) = some 1
    ∧ ((procon_raw_event
          { procon_probe with mode := PROCON_MODE_FULL, mode_new := PROCON_MODE_FULL,
                              analog_dpad := 0, gyro_trigger := 2 } 0
        [0x30, 0x00, 0x00, 0x40, 0x00, 0x00, 0x00, 0x08, 0x80, 0x00, 0x08, 0x80, 0x00,
         0x00, 0x00, 0x10, 0x00] 17).frame.map (fun f => f.ABS_RX)) = some 113 := by
  decide

/-- C18 (amended): for an input report (simple layout with hat code 0..8, or
full layout) decoded while `analog_dpad` is not Off, the overridden stick (the
left one for policy 1, the right one otherwise) has
X = 0x7FFF*right - 0x7FFF*left and Y = 0x7FFF*down - 0x7FFF*up, from the D-pad
keys the same report gives when the policy is Off, so each is -0x7FFF, 0 or
0x7FFF; the four D-pad keys are reported false; and the other stick's axes are
those reported when the policy is Off, provided no gyro fusion applies to that
stick there (simple layout, or `gyro_trigger` not on that stick, or its
trigger bit clear). -/
theorem analog_dpad_override (drvdata : procon_data) (now : Nat) (data : List Nat)
    (size : Int) (hin : drvdata.input = true) (hsize : 1 ≤ size)
    (htag : rd data 0 = 0x30 ∨ rd data 0 = 0x3F)
    (hdpad : drvdata.analog_dpad ≠ 0)
    (_hhat : drvdata.mode = PROCON_MODE_SIMPLE → rd data 3 ≤ 8) :
    ∃ f f0 : input_frame,
      (procon_raw_event drvdata now data size).frame = some f
      ∧ (procon_raw_event { drvdata with analog_dpad := 0 } now data size).frame = some f0
      ∧ f.BTN_DPAD_UP = false ∧ f.BTN_DPAD_DOWN = false
      ∧ f.BTN_DPAD_LEFT = false ∧ f.BTN_DPAD_RIGHT = false
      ∧ (drvdata.analog_dpad = 1 →
          f.ABS_X = 0x7FFF * b2i f0.BTN_DPAD_RIGHT - 0x7FFF * b2i f0.BTN_DPAD_LEFT
          ∧ f.ABS_Y = 0x7FFF * b2i f0.BTN_DPAD_DOWN - 0x7FFF * b2i f0.BTN_DPAD_UP
          ∧ (f.ABS_X = -0x7FFF ∨ f.ABS_X = 0 ∨ f.ABS_X = 0x7FFF)
          ∧ (f.ABS_Y = -0x7FFF ∨ f.ABS_Y = 0 ∨ f.ABS_Y = 0x7FFF)
          ∧ (drvdata.mode = PROCON_MODE_SIMPLE
              ∨ ¬ (drvdata.gyro_trigger = 2 ∧ tst (rd data 3 &&& 0x40) = true) →
              f.ABS_RX = f0.ABS_RX ∧ f.ABS_RY = f0.ABS_RY))
      ∧ (drvdata.analog_dpad ≠ 1 →
          f.ABS_RX = 0x7FFF * b2i f0.BTN_DPAD_RIGHT - 0x7FFF * b2i f0.BTN_DPAD_LEFT
          ∧ f.ABS_RY = 0x7FFF * b2i f0.BTN_DPAD_DOWN - 0x7FFF * b2i f0.BTN_DPAD_UP
          ∧ (f.ABS_RX = -0x7FFF ∨ f.ABS_RX = 0 ∨ f.ABS_RX = 0x7FFF)
          ∧ (f.ABS_RY = -0x7FFF ∨ f.ABS_RY = 0 ∨ f.ABS_RY = 0x7FFF)
          ∧ (drvdata.mode = PROCON_MODE_SIMPLE
              ∨ ¬ (drvdata.gyro_trigger = 1 ∧ tst (rd data 5 &&& 0x40) = true) →
              f.ABS_X = f0.ABS_X ∧ f.ABS_Y = f0.ABS_Y)) := by
  have h1 := (raw_event_input drvdata now data size hin hsize htag).1
  have h2 := (raw_event_input { drvdata with analog_dpad := 0 } now data size hin hsize htag).1
  simp only [] at h2
  by_cases hm : drvdata.mode ≠ PROCON_MODE_SIMPLE
  · rw [if_pos hm] at h1 h2
    have ho := full_layout_override drvdata.analog_dpad drvdata.gyro_trigger data hdpad
    refine ⟨_, _, h1, h2, ho.1, ho.2.1, ho.2.2.1, ho.2.2.2.1, ?_, ?_⟩
    · intro ha
      have hx := ho.2.2.2.2.1 ha
      refine ⟨hx.1, hx.2.1, by rw [hx.1]; exact (s16c_dpad _ _).2,
        by rw [hx.2.1]; exact (s16c_dpad _ _).2, ?_⟩
      intro hf
      rcases hf with hf | hf
      · exact absurd hf hm
      · exact hx.2.2 hf
    · intro ha
      have hx := ho.2.2.2.2.2 ha
      refine ⟨hx.1, hx.2.1, by rw [hx.1]; exact (s16c_dpad _ _).2,
        by rw [hx.2.1]; exact (s16c_dpad _ _).2, ?_⟩
      intro hf
      rcases hf with hf | hf
      · exact absurd hf hm
      · exact hx.2.2 hf
  · rw [if_neg hm] at h1 h2
    have ho := simple_layout_override drvdata.analog_dpad data hdpad
    refine ⟨_, _, h1, h2, ho.1, ho.2.1, ho.2.2.1, ho.2.2.2.1, ?_, ?_⟩
    · intro ha
      have hx := ho.2.2.2.2.1 ha
      exact ⟨hx.1, hx.2.1, by rw [hx.1]; exact (s16c_dpad _ _).2,
        by rw [hx.2.1]; exact (s16c_dpad _ _).2, fun _ => hx.2.2⟩
    · intro ha
      have hx := ho.2.2.2.2.2 ha
      exact ⟨hx.1, hx.2.1, by rw [hx.1]; exact (s16c_dpad _ _).2,
        by rw [hx.2.1]; exact (s16c_dpad _ _).2, fun _ => hx.2.2⟩

/-- Witness for C18 (amended): hat code 1 (up and right) in the simple layout
with the left stick overridden. -/
theorem analog_dpad_override_witness :
    (({ procon_probe with analog_dpad := 1 } : procon_data).analog_dpad ≠ 0
      ∧ rd [0x3F, 0x00, 0x00, 0x01, 0x00, 0x80, 0x00, 0x80, 0x00, 0x80, 0x00, 0x80] 3 ≤ 8)
    ∧ ∃ f f0 : input_frame,
        (procon_raw_event { procon_probe with analog_dpad := 1 } 0
          [0x3F, 0x00, 0x00, 0x01, 0x00, 0x80, 0x00, 0x80, 0x00, 0x80, 0x00, 0x80] 12).frame
          = some f
        ∧ (procon_raw_event { procon_probe with analog_dpad := 0 } 0
          [0x3F, 0x00, 0x00, 0x01, 0x00, 0x80, 0x00, 0x80, 0x00, 0x80, 0x00, 0x80] 12).frame
          = some f0
        ∧ f.BTN_DPAD_UP = false ∧ f.BTN_DPAD_DOWN = false :=
  match analog_dpad_override { procon_probe with analog_dpad := 1 } 0
      [0x3F, 0x00, 0x00, 0x01, 0x00, 0x80, 0x00, 0x80, 0x00, 0x80, 0x00, 0x80] 12
      rfl (by decide) (by decide) (by decide) (fun _ => by decide) with
  | ⟨f, f0, h1, h2, h3, h4, _⟩ => ⟨⟨by decide, by decide⟩, f, f0, h1, h2, h3, h4⟩

/-- C20 (as stated, refuted): the 12-bit value 4095 is recentred to
`(4095 << 4) - 0x7FFF = 0x7FF1`, which is above `0x7FFF - 16`. -/
theorem horizontal_above_claimed_bound :
    ((procon_raw_event
          { procon_probe with mode := PROCON_MODE_FULL, mode_new := PROCON_MODE_FULL } 0
        [0x30, 0x00, 0x00, 0x00, 0x00, 0x00, 0xFF, 0x0F, 0x00, 0x00, 0x00, 0x00, 0x00,
         0x00, 0x00, 0x00, 0x00] 17).frame.map (fun f => f.ABS_X))
      = some ((((4095 : Nat) <<< 4 : Nat) : Int) - 0x7FFF)
    ∧ ¬ ((((4095 : Nat) <<< 4 : Nat) : Int) - 0x7FFF ≤ 0x7FFF - 16) := by
  decide

/-- C20 (amended): the 12-bit left-stick field `r` of a report is at most 4095,
and the recentred horizontal value `(r << 4) - 0x7FFF` that the full-layout
decoder reports for it lies in `[-0x7FFF, 0x7FFF - 14]`. -/
theorem horizontal_range (drvdata : procon_data) (now : Nat) (data : List Nat)
    (size : Int) (r : Nat) (hin : drvdata.input = true) (hsize : 1 ≤ size)
    (htag : rd data 0 = 0x30 ∨ rd data 0 = 0x3F)
    (hmode : drvdata.mode ≠ PROCON_MODE_SIMPLE)
    (hdpad : drvdata.analog_dpad = 0)
    (hfuse : ¬ (drvdata.gyro_trigger = 1 ∧ tst (rd data 5 &&& 0x40) = true)
      ∧ ¬ (drvdata.gyro_trigger = 2 ∧ tst (rd data 3 &&& 0x40) = true))
    (hr : r = rd data 6 ||| ((rd data 7 &&& 0x0F) <<< 8)) :
    r ≤ 4095
    ∧ ∃ f : input_frame, (procon_raw_event drvdata now data size).frame = some f
      ∧ f.ABS_X = ((r <<< 4 : Nat) : Int) - 0x7FFF
      ∧ -0x7FFF ≤ f.ABS_X ∧ f.ABS_X ≤ 0x7FFF - 14 := by
  have hb := (horiz_field data 6)
  rw [← hr] at hb
  have hr4 : r <<< 4 = r * 16 := by rw [Nat.shiftLeft_eq]
  have hle : r ≤ 4095 := by
    have := hb.2
    rw [hb.1, hr4] at this
    omega
  refine ⟨hle, _, (raw_event_input drvdata now data size hin hsize htag).1, ?_⟩
  rw [if_pos hmode, hdpad]
  simp only [full_layout, full_axes_plain _ _ hfuse]
  rw [hb.1, hr4]
  refine ⟨rfl, ?_, ?_⟩ <;> omega

/-- Witness for C20 (amended): the field 0x234. -/
theorem horizontal_range_witness :
    (0x234 : Nat) = rd [0x30, 0x00, 0x00, 0x00, 0x00, 0x00, 0x34, 0xA2, 0x7B, 0xFF, 0x0F,
        0x00, 0x00, 0x00, 0x00, 0x00, 0x00] 6
      ||| ((rd [0x30, 0x00, 0x00, 0x00, 0x00, 0x00, 0x34, 0xA2, 0x7B, 0xFF, 0x0F,
        0x00, 0x00, 0x00, 0x00, 0x00, 0x00] 7 &&& 0x0F) <<< 8)
    ∧ ((0x234 : Nat) ≤ 4095
      ∧ ∃ f : input_frame,
        (procon_raw_event { procon_probe with mode := PROCON_MODE_FULL } 0
          [0x30, 0x00, 0x00, 0x00, 0x00, 0x00, 0x34, 0xA2, 0x7B, 0xFF, 0x0F, 0x00, 0x00,
           0x00, 0x00, 0x00, 0x00] 17).frame = some f
        ∧ f.ABS_X = (((0x234 : Nat) <<< 4 : Nat) : Int) - 0x7FFF
        ∧ -0x7FFF ≤ f.ABS_X ∧ f.ABS_X ≤ 0x7FFF - 14) :=
  ⟨by decide,
    horizontal_range { procon_probe with mode := PROCON_MODE_FULL } 0
      [0x30, 0x00, 0x00, 0x00, 0x00, 0x00, 0x34, 0xA2, 0x7B, 0xFF, 0x0F, 0x00, 0x00,
       0x00, 0x00, 0x00, 0x00] 17 0x234 rfl (by decide) (by decide) (by decide) rfl (by decide)
      (by decide)⟩

/-! ## The hat table -/

theorem hatmap_at_cases (c : Nat) (hc : c ≤ 8) :
    (c = 8 → hatmap_at c = ⟨false, false, false, false⟩)
    ∧ (c = 0 → hatmap_at c = ⟨true, false, false, false⟩)
    ∧ (c = 2 → hatmap_at c = ⟨false, true, false, false⟩)
    ∧ (c = 4 → hatmap_at c = ⟨false, false, true, false⟩)
    ∧ (c = 6 → hatmap_at c = ⟨false, false, false, true⟩)
    ∧ (c = 1 → hatmap_at c = ⟨true, true, false, false⟩)
    ∧ (c = 3 → hatmap_at c = ⟨false, true, true, false⟩)
    ∧ (c = 5 → hatmap_at c = ⟨false, false, true, true⟩)
    ∧ (c = 7 → hatmap_at c = ⟨true, false, false, true⟩)
    ∧ ¬ ((hatmap_at c).up = true ∧ (hatmap_at c).down = true)
    ∧ ¬ ((hatmap_at c).left = true ∧ (hatmap_at c).right = true) := by
  interval_cases c <;> decide

/-! ## Acknowledgements and command ids -/

theorem ack_reply_bytes (hdev : hid_device) (id : Nat) :
    (1 : Int) ≤ (ack_reply hdev id).length
    ∧ rd (ack_reply hdev id) 0 ≠ 0x30
    ∧ rd (if rd (ack_reply hdev id) 0 = 0x81 then (ack_reply hdev id).drop 10
          else ack_reply hdev id) 0 = 0x21
    ∧ rd (if rd (ack_reply hdev id) 0 = 0x81 then (ack_reply hdev id).drop 10
          else ack_reply hdev id) 14 = u8c id := by
  cases hb : hdev.bus_usb <;>
    simp [ack_reply, hb, rd, u8c, PROCON_REPORT_REPLY_USB, PROCON_REPORT_REPLY, List.replicate]

theorem raw_event_ack_reply (hdev : hid_device) (d : procon_data) (id : Nat)
    (hin : d.input = true) :
    procon_raw_event d 0 (ack_reply hdev id) (ack_reply hdev id).length
      = if u8c id = 0x03 ∨ u8c id = 0x40 ∨ u8c id = 0x30 ∨ u8c id = 0x38
        then ⟨{ d with event_cmd := u8c id }, none, 1, 0⟩ else ⟨d, none, 0, 0⟩ := by
  have hb := ack_reply_bytes hdev id
  have hs : ¬ ((ack_reply hdev id).length : Int) < 1 := by omega
  have h30 := hb.2.1
  by_cases hw : rd (ack_reply hdev id) 0 = 0x81
  · have e0 := hb.2.2.1
    have e14 := hb.2.2.2
    rw [if_pos hw] at e0 e14
    by_cases hid : u8c id = 0x03 ∨ u8c id = 0x40 ∨ u8c id = 0x30 ∨ u8c id = 0x38
    · rw [if_pos hid]
      simp [procon_raw_event, hin, hs, hw, h30, e0, e14, hid, PROCON_REPORT_TYPE,
        PROCON_REPORT_INPUT_FULL, PROCON_REPORT_INPUT_SIMPLE, PROCON_REPORT_REPLY_USB,
        PROCON_REPORT_REPLY, PROCON_REPORT_CMD_ACK, PROCON_CMD_MODE, PROCON_CMD_GYRO,
        PROCON_CMD_LED, PROCON_CMD_LED_HOME]
    · rw [if_neg hid]
      simp [procon_raw_event, hin, hs, hw, h30, e0, e14, hid, PROCON_REPORT_TYPE,
        PROCON_REPORT_INPUT_FULL, PROCON_REPORT_INPUT_SIMPLE, PROCON_REPORT_REPLY_USB,
        PROCON_REPORT_REPLY, PROCON_REPORT_CMD_ACK, PROCON_CMD_MODE, PROCON_CMD_GYRO,
        PROCON_CMD_LED, PROCON_CMD_LED_HOME]
  · have e0 := hb.2.2.1
    have e14 := hb.2.2.2
    rw [if_neg hw] at e0 e14
    by_cases hid : u8c id = 0x03 ∨ u8c id = 0x40 ∨ u8c id = 0x30 ∨ u8c id = 0x38
    · rw [if_pos hid]
      simp [procon_raw_event, hin, hs, hw, h30, e0, e14, hid, PROCON_REPORT_TYPE,
        PROCON_REPORT_INPUT_FULL, PROCON_REPORT_INPUT_SIMPLE, PROCON_REPORT_REPLY_USB,
        PROCON_REPORT_REPLY, PROCON_REPORT_CMD_ACK, PROCON_CMD_MODE, PROCON_CMD_GYRO,
        PROCON_CMD_LED, PROCON_CMD_LED_HOME]
    · rw [if_neg hid]
      simp [procon_raw_event, hin, hs, hw, h30, e0, e14, hid, PROCON_REPORT_TYPE,
        PROCON_REPORT_INPUT_FULL, PROCON_REPORT_INPUT_SIMPLE, PROCON_REPORT_REPLY_USB,
        PROCON_REPORT_REPLY, PROCON_REPORT_CMD_ACK, PROCON_CMD_MODE, PROCON_CMD_GYRO,
        PROCON_CMD_LED, PROCON_CMD_LED_HOME]

theorem ack_chain_handled (hdev : hid_device) (self fuel : Nat) (d : procon_data)
    (c : List (Option Nat)) (id : Nat) (pending : List Nat) (hin : d.input = true)
    (hid : u8c id = 0x03 ∨ u8c id = 0x40 ∨ u8c id = 0x30 ∨ u8c id = 0x38) :
    ack_chain hdev self (fuel + 1) d c (id :: pending)
      = (ack_chain hdev self fuel
            (procon_work_event hdev self { d with event_cmd := u8c id } c).drvdata
            (procon_work_event hdev self { d with event_cmd := u8c id } c).connections
            (pending
              ++ (procon_work_event hdev self { d with event_cmd := u8c id } c).sent.map
                  (frame_cmd hdev))).map
          (fun r => ⟨r.drvdata, r.connections,
            (procon_work_event hdev self { d with event_cmd := u8c id } c).sent ++ r.sent⟩) := by
  rw [ack_chain]
  simp only [raw_event_ack_reply hdev d id hin, if_pos hid]
  simp

theorem ack_chain_ignored (hdev : hid_device) (self fuel : Nat) (d : procon_data)
    (c : List (Option Nat)) (id : Nat) (pending : List Nat) (hin : d.input = true)
    (hid : ¬ (u8c id = 0x03 ∨ u8c id = 0x40 ∨ u8c id = 0x30 ∨ u8c id = 0x38)) :
    ack_chain hdev self (fuel + 1) d c (id :: pending) = ack_chain hdev self fuel d c pending := by
  rw [ack_chain]
  simp only [raw_event_ack_reply hdev d id hin, if_neg hid]
  simp

theorem homelight_usb_frame (hdev : hid_device) (v : Nat) (h1 : hdev.bus_usb = true)
    (h2 : hdev.report_id_hash 0x80 = some 0x40) :
    procon_send_data hdev (data_homelight.set 12 v) 34
      = some ([0x80, 0x92, 0x00, 0x31, 0x00, 0x00, 0x00, 0x00]
          ++ [0x01, 0x00, 0x00, 0x90, 0x20, 0x64, 0x00, 0x90, 0x20, 0x64, 0x38, 0x0F, u8c v, 0x20]
          ++ List.replicate 42 0) := by
  simp [procon_send_data, procon_send_report, memcpy_at, u8_array, rd, h1, h2, data_homelight,
    List.range, List.range.loop, u8c, PROCON_REPORT_SEND_USB, PROCON_USB_DO_CMD,
    PROCON_CMD_AND_RUMBLE, PROCON_CMD_LED_HOME, List.replicate]

theorem homelight_bt_frame (hdev : hid_device) (v : Nat) (h : hdev.bus_usb = false) :
    procon_send_data hdev (data_homelight.set 12 v) 34
      = some ([0x01, 0x00, 0x00, 0x90, 0x20, 0x64, 0x00, 0x90, 0x20, 0x64, 0x38, 0x0F, u8c v, 0x20]
          ++ List.replicate 35 0) := by
  simp [procon_send_data, procon_send_report, memcpy_at, u8_array, rd, h, data_homelight,
    List.range, List.range.loop, u8c, PROCON_REPORT_SEND_USB, PROCON_USB_DO_CMD,
    PROCON_CMD_AND_RUMBLE, PROCON_CMD_LED_HOME, List.replicate]

theorem send_data_usb_none (hdev : hid_device) (data : List Nat) (size : Nat)
    (h1 : hdev.bus_usb = true) (h2 : hdev.report_id_hash 0x80 ≠ some 0x40) :
    procon_send_data hdev data size = none := by
  simp only [procon_send_data, procon_send_report, h1, if_true]
  have h0 : rd (memcpy_at (u8_array 64 [PROCON_REPORT_SEND_USB, PROCON_USB_DO_CMD, 0x00,
      0x31, 0x00, 0x00, 0x00, 0x00]) 8 data size) 0 = 0x80 := by
    simp [memcpy_at, u8_array, rd, List.range, List.range.loop, u8c, PROCON_REPORT_SEND_USB]
  rw [h0]
  cases hq : hdev.report_id_hash 0x80 with
  | none => rfl
  | some len =>
    have hl : len ≠ 0x40 := fun e => h2 (by rw [hq, e])
    simp [hl]

theorem send_cmd_ids (hdev : hid_device) (cmd arg : Nat) :
    (procon_send_cmd hdev cmd arg).toList.map (frame_cmd hdev)
      = if can_send hdev = true then [u8c cmd] else [] := by
  cases hb : hdev.bus_usb
  · rw [send_cmd_bt_eq hdev cmd arg hb]
    simp [can_send, hb, frame_cmd, rd, u8c]
  · by_cases hr : hdev.report_id_hash 0x80 = some 0x40
    · rw [send_cmd_usb_eq hdev cmd arg hb hr]
      simp [can_send, hb, hr, frame_cmd, rd, u8c]
    · have : procon_send_cmd hdev cmd arg = none := send_data_usb_none hdev _ 12 hb hr
      rw [this]
      simp [can_send, hb, hr]

theorem homelight_ids (hdev : hid_device) (v : Nat) :
    (procon_send_data hdev (data_homelight.set 12 v) 34).toList.map (frame_cmd hdev)
      = if can_send hdev = true then [0x38] else [] := by
  cases hb : hdev.bus_usb
  · rw [homelight_bt_frame hdev v hb]
    simp [can_send, hb, frame_cmd, rd, u8c]
  · by_cases hr : hdev.report_id_hash 0x80 = some 0x40
    · rw [homelight_usb_frame hdev v hb hr]
      simp [can_send, hb, hr, frame_cmd, rd, u8c]
    · rw [send_data_usb_none hdev _ 34 hb hr]
      simp [can_send, hb, hr]


theorem assign_loop_fields (self : Nat) (fuel : Nat) : ∀ (order : Nat) (d : procon_data)
    (c : List (Option Nat)),
    (assign_loop self fuel order d c).2.1.input = d.input
    ∧ (assign_loop self fuel order d c).2.1.connected = d.connected := by
  induction fuel with
  | zero => intro order d c; exact ⟨rfl, rfl⟩
  | succ n ih =>
    intro order d c
    unfold assign_loop
    by_cases h1 : order < 8
    · by_cases h2 : c.getD order none = none
      · rw [if_pos h1, if_pos h2]; exact ⟨rfl, rfl⟩
      · rw [if_pos h1, if_neg h2]; exact ih (order + 1) d c
    · rw [if_neg h1]; exact ⟨rfl, rfl⟩

theorem register_connection_summary (hdev : hid_device) (self : Nat) (d : procon_data)
    (c : List (Option Nat)) :
    (register_connection hdev self d c).drvdata.input = d.input
    ∧ (register_connection hdev self d c).drvdata.connected = true
    ∧ (register_connection hdev self d c).sent.map (frame_cmd hdev)
        = (if d.connected = true then [] else if can_send hdev = true then [0x30] else []) := by
  unfold register_connection
  by_cases hc : d.connected = true
  · simp [hc]
  · have hl := assign_loop_fields self 8 0 { d with connected := true } c
    simp only [Bool.not_eq_true] at hc
    simp only [hc, Bool.not_false, if_true, Bool.false_eq_true, if_false]
    refine ⟨?_, ?_, ?_⟩
    · split_ifs <;> exact hl.1
    · split_ifs <;> exact hl.2
    · rw [send_cmd_ids]; rfl

/-- The modes, the registration and the command ids a run of the job leaves
depend only on the event, the modes, the registration and the transport. -/
theorem work_event_sim (hdev hdev0 : hid_device) (self self0 : Nat) (d d0 : procon_data)
    (c c0 : List (Option Nat)) (hbus : hdev.bus_usb = hdev0.bus_usb)
    (hcs : can_send hdev = can_send hdev0) (hev : u8c d.event_cmd = u8c d0.event_cmd)
    (hm : d.mode = d0.mode) (hmn : d.mode_new = d0.mode_new)
    (hconn : d.connected = d0.connected) :
    (procon_work_event hdev self d c).drvdata.input = d.input
    ∧ (procon_work_event hdev self d c).drvdata.mode
        = (procon_work_event hdev0 self0 d0 c0).drvdata.mode
    ∧ (procon_work_event hdev self d c).drvdata.mode_new
        = (procon_work_event hdev0 self0 d0 c0).drvdata.mode_new
    ∧ (procon_work_event hdev self d c).drvdata.connected
        = (procon_work_event hdev0 self0 d0 c0).drvdata.connected
    ∧ (procon_work_event hdev self d c).sent.map (frame_cmd hdev)
        = (procon_work_event hdev0 self0 d0 c0).sent.map (frame_cmd hdev0) := by
  have r := register_connection_summary hdev self d c
  have r0 := register_connection_summary hdev0 self0 d0 c0
  have q := register_connection_modes hdev self d c
  have q0 := register_connection_modes hdev0 self0 d0 c0
  unfold procon_work_event
  simp only [← hev, ← hm, ← hmn, ← hbus]
  split_ifs <;>
    simp [r, r0, q, q0, send_cmd_ids, homelight_ids, ← hcs, ← hm, ← hmn, ← hconn, ← hbus]

theorem chain_summary_map (hdev : hid_device) (sent : List (List Nat))
    (x : Option work_event_result) :
    chain_summary hdev (x.map (fun r => ⟨r.drvdata, r.connections, sent ++ r.sent⟩))
      = (chain_summary hdev x).map
          (fun s => (s.1, s.2.1, s.2.2.1, s.2.2.2.1, sent.map (frame_cmd hdev) ++ s.2.2.2.2)) := by
  cases x <;> simp [chain_summary]

/-- The summary of a chain depends only on the modes, the registration, the
transport and the pending ids. -/
theorem ack_chain_sim (hdev hdev0 : hid_device) (self self0 : Nat)
    (hbus : hdev.bus_usb = hdev0.bus_usb) (hcs : can_send hdev = can_send hdev0)
    (fuel : Nat) : ∀ (d d0 : procon_data) (c c0 : List (Option Nat)) (pending : List Nat),
    d.input = true → d0.input = true → d.mode = d0.mode → d.mode_new = d0.mode_new →
    d.connected = d0.connected →
    chain_summary hdev (ack_chain hdev self fuel d c pending)
      = chain_summary hdev0 (ack_chain hdev0 self0 fuel d0 c0 pending) := by
  induction fuel with
  | zero =>
    intro d d0 c c0 pending hi hi0 hm hmn hc
    cases pending with
    | nil => simp [ack_chain, chain_summary, hi, hi0, hm, hmn, hc]
    | cons id rest => simp [ack_chain, chain_summary]
  | succ n ih =>
    intro d d0 c c0 pending hi hi0 hm hmn hc
    cases pending with
    | nil => simp [ack_chain, chain_summary, hi, hi0, hm, hmn, hc]
    | cons id rest =>
      by_cases hid : u8c id = 0x03 ∨ u8c id = 0x40 ∨ u8c id = 0x30 ∨ u8c id = 0x38
      · rw [ack_chain_handled hdev self n d c id rest hi hid,
          ack_chain_handled hdev0 self0 n d0 c0 id rest hi0 hid,
          chain_summary_map, chain_summary_map]
        have w := work_event_sim hdev hdev0 self self0 { d with event_cmd := u8c id }
          { d0 with event_cmd := u8c id } c c0 hbus hcs rfl hm hmn hc
        have w0 := work_event_sim hdev0 hdev0 self0 self0 { d0 with event_cmd := u8c id }
          { d0 with event_cmd := u8c id } c0 c0 rfl rfl rfl rfl rfl rfl
        rw [w.2.2.2.2]
        rw [ih _ _ _ _ _ (w.1.trans hi) (w0.1.trans hi0) w.2.1 w.2.2.1 w.2.2.2.1]
      · rw [ack_chain_ignored hdev self n d c id rest hi hid,
          ack_chain_ignored hdev0 self0 n d0 c0 id rest hi0 hid]
        exact ih d d0 c c0 rest hi hi0 hm hmn hc

theorem job_chain_sim (hdev hdev0 : hid_device) (self self0 : Nat)
    (hbus : hdev.bus_usb = hdev0.bus_usb) (hcs : can_send hdev = can_send hdev0)
    (fuel : Nat) (d d0 : procon_data) (c c0 : List (Option Nat))
    (hi : d.input = true) (hi0 : d0.input = true) (hev : u8c d.event_cmd = u8c d0.event_cmd)
    (hm : d.mode = d0.mode) (hmn : d.mode_new = d0.mode_new)
    (hc : d.connected = d0.connected) :
    chain_summary hdev (job_chain hdev self fuel d c)
      = chain_summary hdev0 (job_chain hdev0 self0 fuel d0 c0) := by
  unfold job_chain
  simp only []
  rw [chain_summary_map, chain_summary_map]
  have w := work_event_sim hdev hdev0 self self0 d d0 c c0 hbus hcs hev hm hmn hc
  have w0 := work_event_sim hdev0 hdev0 self0 self0 d0 d0 c0 c0 rfl rfl rfl rfl rfl rfl
  rw [w.2.2.2.2]
  rw [ack_chain_sim hdev hdev0 self self0 hbus hcs fuel _ _ _ _ _ (w.1.trans hi)
    (w0.1.trans hi0) w.2.1 w.2.2.1 w.2.2.2.1]

set_option maxRecDepth 100000 in
theorem canon_chain_check (usb ok conn : Bool) (m mn : modes) :
    ∀ ev ∈ [0x03, 0x40, 0x30, 0x38, 0xFF],
      (chain_summary (canon_dev usb ok)
          (job_chain (canon_dev usb ok) 0 16 (canon_data ev m mn conn)
            (List.replicate 8 none))).map
        (fun s => decide (s.1 = true ∧ s.2.2.2.2.length ≤ 7
          ∧ (((ev = 0x38 ∧ can_send (canon_dev usb ok) = true) ∨ 0x38 ∈ s.2.2.2.2) →
              s.2.2.2.2.getLast? = some 0x00)
          ∧ (¬ ((ev = 0x38 ∧ can_send (canon_dev usb ok) = true) ∨ 0x38 ∈ s.2.2.2.2) →
              ∀ id ∈ s.2.2.2.2, id = 0x03 ∨ id = 0x40 ∨ id = 0x30)))
      = some true := by
  cases usb <;> cases ok <;> cases conn <;> cases m <;> cases mn <;> decide

theorem can_send_canon (hdev : hid_device) :
    can_send hdev = can_send (canon_dev hdev.bus_usb (can_send hdev)) := by
  cases hb : hdev.bus_usb <;> cases hq : hdev.report_id_hash 0x80 <;>
    simp [can_send, canon_dev, hb, hq]

theorem work_event_other (hdev : hid_device) (self : Nat) (d : procon_data)
    (c : List (Option Nat)) (h : u8c d.event_cmd ∉ [0x03, 0x40, 0x30, 0x38, 0xFF]) :
    procon_work_event hdev self d c = ⟨d, c, []⟩ := by
  simp only [List.mem_cons, List.mem_singleton, List.not_mem_nil, or_false, not_or] at h
  simp [procon_work_event, h, PROCON_CMD_MODE, PROCON_CMD_GYRO, PROCON_EVENT_TOGGLE_GYRO,
    PROCON_CMD_LED, PROCON_CMD_LED_HOME]

/-! ## The frames with the id 0x00 -/

theorem send_cmd_frame_id (hdev : hid_device) (cmd arg : Nat) (f : List Nat)
    (hf : f ∈ (procon_send_cmd hdev cmd arg).toList) : frame_cmd hdev f = u8c cmd := by
  have h := send_cmd_ids hdev cmd arg
  have hm : frame_cmd hdev f ∈ (procon_send_cmd hdev cmd arg).toList.map (frame_cmd hdev) :=
    List.mem_map.mpr ⟨f, hf, rfl⟩
  rw [h] at hm
  split_ifs at hm <;> simp at hm
  exact hm

theorem homelight_frame_id (hdev : hid_device) (v : Nat) (f : List Nat)
    (hf : f ∈ (procon_send_data hdev (data_homelight.set 12 v) 34).toList) :
    frame_cmd hdev f = 0x38 := by
  have h := homelight_ids hdev v
  have hm : frame_cmd hdev f
      ∈ (procon_send_data hdev (data_homelight.set 12 v) 34).toList.map (frame_cmd hdev) :=
    List.mem_map.mpr ⟨f, hf, rfl⟩
  rw [h] at hm
  split_ifs at hm <;> simp at hm
  exact hm

theorem register_connection_frame_id (hdev : hid_device) (self : Nat) (d : procon_data)
    (c : List (Option Nat)) (f : List Nat) (hf : f ∈ (register_connection hdev self d c).sent) :
    frame_cmd hdev f = 0x30 := by
  have h := (register_connection_summary hdev self d c).2.2
  have hm : frame_cmd hdev f ∈ (register_connection hdev self d c).sent.map (frame_cmd hdev) :=
    List.mem_map.mpr ⟨f, hf, rfl⟩
  rw [h] at hm
  split_ifs at hm <;> simp at hm
  exact hm

theorem noop_of_register (hdev : hid_device) (self : Nat) (d : procon_data)
    (c : List (Option Nat)) (f : List Nat) (h0 : frame_cmd hdev f = 0x00)
    (hf : f ∈ (register_connection hdev self d c).sent) :
    some f = procon_send_cmd hdev 0x00 0x00 := by
  have := register_connection_frame_id hdev self d c f hf
  rw [h0] at this; exact absurd this (by decide)

theorem noop_of_send_cmd (hdev : hid_device) (cmd arg : Nat) (f : List Nat)
    (h0 : frame_cmd hdev f = 0x00) (hf : f ∈ (procon_send_cmd hdev cmd arg).toList)
    (hc : u8c cmd ≠ 0) : some f = procon_send_cmd hdev 0x00 0x00 := by
  have := send_cmd_frame_id hdev cmd arg f hf
  rw [h0] at this; exact absurd this.symm hc

theorem noop_of_homelight (hdev : hid_device) (v : Nat) (f : List Nat)
    (h0 : frame_cmd hdev f = 0x00)
    (hf : f ∈ (procon_send_data hdev (data_homelight.set 12 v) 34).toList) :
    some f = procon_send_cmd hdev 0x00 0x00 := by
  have := homelight_frame_id hdev v f hf
  rw [h0] at this; exact absurd this (by decide)

theorem noop_of_noop (hdev : hid_device) (f : List Nat)
    (hf : f ∈ (procon_send_cmd hdev 0x00 0x00).toList) :
    some f = procon_send_cmd hdev 0x00 0x00 := by
  rw [Option.mem_toList] at hf
  exact hf.symm

/-- The only frame with the id 0x00 a run of the job sends is the no-op. -/
theorem work_event_noop_frame (hdev : hid_device) (self : Nat) (d : procon_data)
    (c : List (Option Nat)) (f : List Nat) (hf : f ∈ (procon_work_event hdev self d c).sent)
    (h0 : frame_cmd hdev f = 0x00) : some f = procon_send_cmd hdev 0x00 0x00 := by
  unfold procon_work_event at hf
  simp only [] at hf
  split_ifs at hf
  all_goals first
    | with_reducible exact noop_of_register hdev self d c f h0 hf
    | with_reducible exact noop_of_homelight hdev _ f h0 hf
    | with_reducible exact noop_of_noop hdev f hf
    | exact noop_of_send_cmd hdev PROCON_CMD_MODE _ f h0 (by with_reducible exact hf) (by decide)
    | exact noop_of_send_cmd hdev PROCON_CMD_GYRO _ f h0 (by with_reducible exact hf) (by decide)
    | with_reducible exact absurd hf (List.not_mem_nil f)
    | (rw [List.mem_append] at hf
       rcases hf with hf | hf
       · with_reducible exact noop_of_register hdev self d c f h0 hf
       · first
         | with_reducible exact noop_of_homelight hdev _ f h0 hf
         | exact noop_of_send_cmd hdev PROCON_CMD_GYRO _ f h0 (by with_reducible exact hf)
             (by decide))

theorem ack_chain_noop_frame (hdev : hid_device) (self : Nat) (fuel : Nat) :
    ∀ (d : procon_data) (c : List (Option Nat)) (pending : List Nat) (r : work_event_result),
    ack_chain hdev self fuel d c pending = some r →
    ∀ f ∈ r.sent, frame_cmd hdev f = 0x00 → some f = procon_send_cmd hdev 0x00 0x00 := by
  induction fuel with
  | zero =>
    intro d c pending r h f hf
    cases pending with
    | nil => simp [ack_chain] at h; subst h; simp at hf
    | cons id rest => simp [ack_chain] at h
  | succ n ih =>
    intro d c pending r h f hf h0
    cases pending with
    | nil => simp [ack_chain] at h; subst h; simp at hf
    | cons id rest =>
      rw [ack_chain] at h
      simp only [] at h
      split_ifs at h with hj
      · exact ih _ _ _ r h f hf h0
      · rw [Option.map_eq_some'] at h
        obtain ⟨r2, hr2, e⟩ := h
        subst e
        simp only [List.mem_append] at hf
        rcases hf with hf | hf
        · exact work_event_noop_frame hdev self _ _ f hf h0
        · exact ih _ _ _ r2 hr2 f hf h0

theorem job_chain_noop_frame (hdev : hid_device) (self : Nat) (fuel : Nat) (d : procon_data)
    (c : List (Option Nat)) (r : work_event_result) (h : job_chain hdev self fuel d c = some r)
    (f : List Nat) (hf : f ∈ r.sent) (h0 : frame_cmd hdev f = 0x00) :
    some f = procon_send_cmd hdev 0x00 0x00 := by
  unfold job_chain at h
  simp only [] at h
  rw [Option.map_eq_some'] at h
  obtain ⟨r2, hr2, e⟩ := h
  subst e
  simp only [List.mem_append] at hf
  rcases hf with hf | hf
  · exact work_event_noop_frame hdev self _ _ f hf h0
  · exact ack_chain_noop_frame hdev self fuel _ _ _ r2 hr2 f hf h0

/-! ## The D-pad in the simple layout -/

/-- C21: for an input report decoded with the simple layout (stored mode
Simple) with `analog_dpad` off and hat code `c = data[3]` in 0..8, the D-pad
keys (up, right, down, left) are: none for 8; up, right, down, left alone for
0, 2, 4, 6; up+right, right+down, down+left, left+up for 1, 3, 5, 7; and never
two opposite directions. -/
theorem hat_code_dpad (drvdata : procon_data) (now : Nat) (data : List Nat) (size : Int)
    (hin : drvdata.input = true) (hsize : 1 ≤ size)
    (htag : rd data 0 = 0x30 ∨ rd data 0 = 0x3F)
    (hmode : drvdata.mode = PROCON_MODE_SIMPLE) (hdpad : drvdata.analog_dpad = 0)
    (hc : rd data 3 ≤ 8) :
    ∃ f : input_frame, (procon_raw_event drvdata now data size).frame = some f
      ∧ (rd data 3 = 8 → (f.BTN_DPAD_UP, f.BTN_DPAD_RIGHT, f.BTN_DPAD_DOWN, f.BTN_DPAD_LEFT)
          = (false, false, false, false))
      ∧ (rd data 3 = 0 → (f.BTN_DPAD_UP, f.BTN_DPAD_RIGHT, f.BTN_DPAD_DOWN, f.BTN_DPAD_LEFT)
          = (true, false, false, false))
      ∧ (rd data 3 = 2 → (f.BTN_DPAD_UP, f.BTN_DPAD_RIGHT, f.BTN_DPAD_DOWN, f.BTN_DPAD_LEFT)
          = (false, true, false, false))
      ∧ (rd data 3 = 4 → (f.BTN_DPAD_UP, f.BTN_DPAD_RIGHT, f.BTN_DPAD_DOWN, f.BTN_DPAD_LEFT)
          = (false, false, true, false))
      ∧ (rd data 3 = 6 → (f.BTN_DPAD_UP, f.BTN_DPAD_RIGHT, f.BTN_DPAD_DOWN, f.BTN_DPAD_LEFT)
          = (false, false, false, true))
      ∧ (rd data 3 = 1 → (f.BTN_DPAD_UP, f.BTN_DPAD_RIGHT, f.BTN_DPAD_DOWN, f.BTN_DPAD_LEFT)
          = (true, true, false, false))
      ∧ (rd data 3 = 3 → (f.BTN_DPAD_UP, f.BTN_DPAD_RIGHT, f.BTN_DPAD_DOWN, f.BTN_DPAD_LEFT)
          = (false, true, true, false))
      ∧ (rd data 3 = 5 → (f.BTN_DPAD_UP, f.BTN_DPAD_RIGHT, f.BTN_DPAD_DOWN, f.BTN_DPAD_LEFT)
          = (false, false, true, true))
      ∧ (rd data 3 = 7 → (f.BTN_DPAD_UP, f.BTN_DPAD_RIGHT, f.BTN_DPAD_DOWN, f.BTN_DPAD_LEFT)
          = (true, false, false, true))
      ∧ ¬ (f.BTN_DPAD_UP = true ∧ f.BTN_DPAD_DOWN = true)
      ∧ ¬ (f.BTN_DPAD_LEFT = true ∧ f.BTN_DPAD_RIGHT = true) := by
  have h := (raw_event_input drvdata now data size hin hsize htag).1
  rw [if_neg (not_not.mpr hmode), hdpad] at h
  have hh := hatmap_at_cases (rd data 3) hc
  refine ⟨_, h, ?_⟩
  simp only [simple_layout, if_true]
  refine ⟨?_, ?_, ?_, ?_, ?_, ?_, ?_, ?_, ?_, hh.2.2.2.2.2.2.2.2.2.1, hh.2.2.2.2.2.2.2.2.2.2⟩
  · intro e; rw [hh.1 e]
  · intro e; rw [hh.2.1 e]
  · intro e; rw [hh.2.2.1 e]
  · intro e; rw [hh.2.2.2.1 e]
  · intro e; rw [hh.2.2.2.2.1 e]
  · intro e; rw [hh.2.2.2.2.2.1 e]
  · intro e; rw [hh.2.2.2.2.2.2.1 e]
  · intro e; rw [hh.2.2.2.2.2.2.2.1 e]
  · intro e; rw [hh.2.2.2.2.2.2.2.2.1 e]

/-- Witness for C21: hat code 3 gives right and down. -/
theorem hat_code_dpad_witness :
    (procon_probe.mode = PROCON_MODE_SIMPLE ∧ procon_probe.analog_dpad = 0
      ∧ rd [0x3F, 0x00, 0x00, 0x03, 0x00, 0x80, 0x00, 0x80, 0x00, 0x80, 0x00, 0x80] 3 ≤ 8)
    ∧ ∃ f : input_frame,
        (procon_raw_event procon_probe 0
          [0x3F, 0x00, 0x00, 0x03, 0x00, 0x80, 0x00, 0x80, 0x00, 0x80, 0x00, 0x80] 12).frame
          = some f
        ∧ (f.BTN_DPAD_UP, f.BTN_DPAD_RIGHT, f.BTN_DPAD_DOWN, f.BTN_DPAD_LEFT)
          = (false, true, true, false) :=
  match hat_code_dpad procon_probe 0
      [0x3F, 0x00, 0x00, 0x03, 0x00, 0x80, 0x00, 0x80, 0x00, 0x80, 0x00, 0x80] 12
      rfl (by decide) (by decide) rfl rfl (by decide) with
  | ⟨f, h1, _, _, _, _, _, _, h3, _⟩ => ⟨⟨rfl, rfl, by decide⟩, f, h1, h3 (by decide)⟩

/-! ## The gyro toggle through the ack chain -/

/-- C22: for a registered connection with mode = mode_new = Simple on the raw
transport (Full on the wrapped one), on a device that can send, the job of a
ToggleGyro gesture and the acks of the commands it causes send, in order,
SetMode(Full) (raw only), EnableGyro(true), the HomeLight body with byte
12 = 0x20 and the no-op, and end with mode = mode_new = Gyro; a second
ToggleGyro and its acks send EnableGyro(false), SetMode(Simple) (raw only), the
HomeLight body with byte 12 = 0x21 and the no-op, and end with the modes the
connection started with. -/
theorem gyro_toggle_round_trip (hdev : hid_device) (self : Nat) (drvdata : procon_data)
    (connections : List (Option Nat)) (hcs : can_send hdev = true)
    (hin : drvdata.input = true) (hconn : drvdata.connected = true)
    (hmode : drvdata.mode = if hdev.bus_usb then PROCON_MODE_FULL else PROCON_MODE_SIMPLE)
    (hnew : drvdata.mode_new = drvdata.mode) :
    job_chain hdev self 8 { drvdata with event_cmd := PROCON_EVENT_TOGGLE_GYRO } connections
      = some ⟨{ drvdata with mode := PROCON_MODE_GYRO, mode_new := PROCON_MODE_GYRO,
                             event_cmd := PROCON_CMD_LED_HOME }, connections,
          (if hdev.bus_usb then []
            else (procon_send_cmd hdev PROCON_CMD_MODE PROCON_ARG_INPUT_FULL).toList)
            ++ (procon_send_cmd hdev PROCON_CMD_GYRO 1).toList
            ++ (procon_send_data hdev (data_homelight.set 12 0x20) 34).toList
            ++ (procon_send_cmd hdev 0x00 0x00).toList⟩
    ∧ job_chain hdev self 8
        { drvdata with mode := PROCON_MODE_GYRO, mode_new := PROCON_MODE_GYRO,
                       event_cmd := PROCON_EVENT_TOGGLE_GYRO } connections
      = some ⟨{ drvdata with event_cmd := PROCON_CMD_LED_HOME }, connections,
          (procon_send_cmd hdev PROCON_CMD_GYRO 0).toList
            ++ (if hdev.bus_usb then []
                else (procon_send_cmd hdev PROCON_CMD_MODE PROCON_ARG_INPUT_SIMPLE).toList)
            ++ (procon_send_data hdev (data_homelight.set 12 0x21) 34).toList
            ++ (procon_send_cmd hdev 0x00 0x00).toList⟩ := by
  cases hbus : hdev.bus_usb
  · rw [hbus] at hmode
    simp only [Bool.false_eq_true, if_false] at hmode
    rw [hmode] at hnew
    constructor
    · simp [job_chain, ack_chain_handled, ack_chain_ignored, procon_work_event,
        register_connection, send_cmd_ids, homelight_ids, hcs, hin, hconn, hmode, hbus, u8c,
        PROCON_EVENT_TOGGLE_GYRO, PROCON_CMD_MODE, PROCON_CMD_GYRO, PROCON_CMD_LED,
        PROCON_CMD_LED_HOME, PROCON_ARG_INPUT_FULL, PROCON_ARG_INPUT_SIMPLE, ack_chain]
    · simp [job_chain, ack_chain_handled, ack_chain_ignored, procon_work_event,
        register_connection, send_cmd_ids, homelight_ids, hcs, hin, hconn, hbus, u8c,
        PROCON_EVENT_TOGGLE_GYRO, PROCON_CMD_MODE, PROCON_CMD_GYRO, PROCON_CMD_LED,
        PROCON_CMD_LED_HOME, PROCON_ARG_INPUT_FULL, PROCON_ARG_INPUT_SIMPLE, ack_chain]
      cases drvdata
      simp_all
  · rw [hbus] at hmode
    simp only [if_true] at hmode
    rw [hmode] at hnew
    constructor
    · simp [job_chain, ack_chain_handled, ack_chain_ignored, procon_work_event,
        register_connection, send_cmd_ids, homelight_ids, hcs, hin, hconn, hmode, hbus, u8c,
        PROCON_EVENT_TOGGLE_GYRO, PROCON_CMD_MODE, PROCON_CMD_GYRO, PROCON_CMD_LED,
        PROCON_CMD_LED_HOME, PROCON_ARG_INPUT_FULL, PROCON_ARG_INPUT_SIMPLE, ack_chain]
    · simp [job_chain, ack_chain_handled, ack_chain_ignored, procon_work_event,
        register_connection, send_cmd_ids, homelight_ids, hcs, hin, hconn, hbus, u8c,
        PROCON_EVENT_TOGGLE_GYRO, PROCON_CMD_MODE, PROCON_CMD_GYRO, PROCON_CMD_LED,
        PROCON_CMD_LED_HOME, PROCON_ARG_INPUT_FULL, PROCON_ARG_INPUT_SIMPLE, ack_chain]
      cases drvdata
      simp_all

/-- Witness for C22: a registered wireless connection in mode Simple. -/
theorem gyro_toggle_round_trip_witness :
    (can_send wireless = true
      ∧ ({ procon_probe with connected := true } : procon_data).mode
          = (if wireless.bus_usb then PROCON_MODE_FULL else PROCON_MODE_SIMPLE))
    ∧ job_chain wireless 0 8
        { ({ procon_probe with connected := true } : procon_data) with
            event_cmd := PROCON_EVENT_TOGGLE_GYRO } (List.replicate 8 none)
      = some ⟨{ ({ procon_probe with connected := true } : procon_data) with
                  mode := PROCON_MODE_GYRO, mode_new := PROCON_MODE_GYRO,
                  event_cmd := PROCON_CMD_LED_HOME }, List.replicate 8 none,
          (if wireless.bus_usb then []
            else (procon_send_cmd wireless PROCON_CMD_MODE PROCON_ARG_INPUT_FULL).toList)
            ++ (procon_send_cmd wireless PROCON_CMD_GYRO 1).toList
            ++ (procon_send_data wireless (data_homelight.set 12 0x20) 34).toList
            ++ (procon_send_cmd wireless 0x00 0x00).toList⟩ :=
  ⟨⟨rfl, rfl⟩,
    (gyro_toggle_round_trip wireless 0 { procon_probe with connected := true }
      (List.replicate 8 none) rfl rfl rfl rfl rfl).1⟩

/-! ## The ack chain ends -/

/-- C23 (as stated, refuted): on a registered connection with mode = mode_new =
Simple, the chain started by AckReply(SetMode) sends nothing, and the chain
started by AckReply(EnableGyro) sends SetMode(Simple) and nothing after it; on
an unregistered connection with mode = mode_new = Gyro the chain started by
AckReply(SetMode) sends SetLed and nothing after it. None ends with the
no-op. -/
theorem chain_without_noop :
    (job_chain wireless 0 16 (canon_data 0x03 PROCON_MODE_SIMPLE PROCON_MODE_SIMPLE true)
        (List.replicate 8 none)).map (fun r => r.sent.map (frame_cmd wireless)) = some []
    ∧ (job_chain wireless 0 16 (canon_data 0x40 PROCON_MODE_SIMPLE PROCON_MODE_SIMPLE true)
        (List.replicate 8 none)).map (fun r => r.sent.map (frame_cmd wireless)) = some [0x03]
    ∧ (job_chain wireless 0 16 (canon_data 0x03 PROCON_MODE_GYRO PROCON_MODE_GYRO false)
        (List.replicate 8 none)).map (fun r => r.sent.map (frame_cmd wireless)) = some [0x30] := by
  decide

/-- C23 (amended): with the input device registered, from every connection
state and for every stored event, the job and the acknowledgements of the
commands it causes come to an end: 16 acknowledgements exhaust the pending
commands and at most 7 commands are sent. If the stored event is
AckReply(HomeLight) on a device that can send, or a HomeLight command is among
the commands sent, the last frame sent is the no-op (cmd 0x00, arg 0x00). In
every other case no frame sent is the no-op: each carries the id of SetMode,
EnableGyro or SetLed. The acknowledgement of the no-op schedules no job and
changes nothing. -/
theorem ack_chain_terminates (hdev : hid_device) (self : Nat) (drvdata : procon_data)
    (connections : List (Option Nat)) (hin : drvdata.input = true) :
    ∃ r : work_event_result, job_chain hdev self 16 drvdata connections = some r
      ∧ r.sent.length ≤ 7
      ∧ (((u8c drvdata.event_cmd = PROCON_CMD_LED_HOME ∧ can_send hdev = true)
            ∨ ∃ frame ∈ r.sent, frame_cmd hdev frame = PROCON_CMD_LED_HOME) →
          ∃ noop, procon_send_cmd hdev 0x00 0x00 = some noop ∧ r.sent.getLast? = some noop)
      ∧ (¬ ((u8c drvdata.event_cmd = PROCON_CMD_LED_HOME ∧ can_send hdev = true)
            ∨ ∃ frame ∈ r.sent, frame_cmd hdev frame = PROCON_CMD_LED_HOME) →
          ∀ frame ∈ r.sent, some frame ≠ procon_send_cmd hdev 0x00 0x00
            ∧ (frame_cmd hdev frame = PROCON_CMD_MODE ∨ frame_cmd hdev frame = PROCON_CMD_GYRO
              ∨ frame_cmd hdev frame = PROCON_CMD_LED))
      ∧ procon_raw_event r.drvdata 0 (ack_reply hdev 0x00) (ack_reply hdev 0x00).length
          = ⟨r.drvdata, none, 0, 0⟩ := by
  have hnoop : ∀ d : procon_data, d.input = true →
      procon_raw_event d 0 (ack_reply hdev 0x00) (ack_reply hdev 0x00).length
        = ⟨d, none, 0, 0⟩ := by
    intro d hd
    rw [raw_event_ack_reply hdev d 0 hd]
    simp [u8c]
  by_cases hev : u8c drvdata.event_cmd ∈ [0x03, 0x40, 0x30, 0x38, 0xFF]
  · have sim := job_chain_sim hdev (canon_dev hdev.bus_usb (can_send hdev)) self 0 rfl
      (can_send_canon hdev) 16 drvdata
      (canon_data (u8c drvdata.event_cmd) drvdata.mode drvdata.mode_new drvdata.connected)
      connections (List.replicate 8 none) hin rfl (u8c_idem _).symm rfl rfl rfl
    have chk := canon_chain_check hdev.bus_usb (can_send hdev) drvdata.connected drvdata.mode
      drvdata.mode_new (u8c drvdata.event_cmd) hev
    rw [← sim, ← can_send_canon hdev] at chk
    cases hj : job_chain hdev self 16 drvdata connections with
    | none => simp [hj, chain_summary] at chk
    | some r =>
      simp only [hj, chain_summary, Option.map_some', Option.some.injEq, decide_eq_true_eq]
        at chk
      obtain ⟨h1, h2, h3, h4⟩ := chk
      have hA : ((u8c drvdata.event_cmd = PROCON_CMD_LED_HOME ∧ can_send hdev = true)
            ∨ ∃ frame ∈ r.sent, frame_cmd hdev frame = PROCON_CMD_LED_HOME) ↔
          ((u8c drvdata.event_cmd = 0x38 ∧ can_send hdev = true)
            ∨ 0x38 ∈ r.sent.map (frame_cmd hdev)) := by
        simp only [PROCON_CMD_LED_HOME, List.mem_map]
      refine ⟨r, rfl, by simpa using h2, ?_, ?_, hnoop r.drvdata h1⟩
      · intro a
        have hl := h3 (hA.mp a)
        rw [List.getLast?_map] at hl
        cases hg : r.sent.getLast? with
        | none => rw [hg] at hl; simp at hl
        | some g =>
          rw [hg] at hl
          simp only [Option.map_some', Option.some.injEq] at hl
          have hmem : g ∈ r.sent := List.mem_of_getLast?_eq_some hg
          exact ⟨g, (job_chain_noop_frame hdev self 16 drvdata connections r hj g hmem hl).symm,
            rfl⟩
      · intro a frame hf
        have hid := h4 (fun b => a (hA.mpr b)) (frame_cmd hdev frame)
          (List.mem_map.mpr ⟨frame, hf, rfl⟩)
        refine ⟨?_, hid⟩
        intro e
        have hq : frame ∈ (procon_send_cmd hdev 0x00 0x00).toList := by
          rw [Option.mem_toList]; exact e.symm
        have := send_cmd_frame_id hdev 0x00 0x00 frame hq
        rw [this] at hid
        revert hid; decide
  · have hw := work_event_other hdev self drvdata connections hev
    have hj : job_chain hdev self 16 drvdata connections = some ⟨drvdata, connections, []⟩ := by
      simp [job_chain, hw, ack_chain]
    refine ⟨⟨drvdata, connections, []⟩, hj, by simp, ?_, ?_, hnoop drvdata hin⟩
    · rintro (⟨h38, _⟩ | ⟨frame, hf, _⟩)
      · exact absurd (by rw [h38]; decide) hev
      · simp at hf
    · intro _ frame hf
      simp at hf

/-- Witness for C23 (amended): the AckReply(HomeLight) of a wireless connection;
the chain ends with the no-op. -/
theorem ack_chain_terminates_witness :
    procon_probe.input = true
    ∧ ∃ r : work_event_result,
        job_chain wireless 0 16 { procon_probe with event_cmd := 0x38 } (List.replicate 8 none)
          = some r
        ∧ r.sent.length ≤ 7
        ∧ ∃ noop, procon_send_cmd wireless 0x00 0x00 = some noop
            ∧ r.sent.getLast? = some noop :=
  match ack_chain_terminates wireless 0 { procon_probe with event_cmd := 0x38 }
      (List.replicate 8 none) rfl with
  | ⟨r, h1, h2, h3, _⟩ => ⟨rfl, r, h1, h2, h3 (Or.inl ⟨by decide, by decide⟩)⟩

end Procon
